import Mathlib

/-!
A shallow embedding of `AWSAutomation-PythonScript-CustomVPC.py`, the single
script of this repository.  The provider (AWS) is modelled as an explicit
state record `AwsState`; every `get_or_create_*` function of the script
becomes a pure Lean function from that state to a result, the successor
state, and a trace of the provider calls it issued.  Provider-assigned
identifiers are drawn from a counter `nextId`.  The script's module-level
execution flow (lines 324-385 of the source) is `runScript`.

Modelling conventions, each noted again at the definition it concerns:
* tag creation (`create_tags`) and the attribute calls that the script only
  ever issues immediately after creating a resource (`modify_vpc_attribute`,
  `modify_subnet_attribute`, `attach_internet_gateway`,
  `authorize_security_group_ingress`) are folded into the created record;
  the subnet attribute call additionally appears as a `modifyRes` trace
  event because claim C7 is about whether that call is issued;
* the unbounded polling loop `wait_for_nat` (`while True:` in the source)
  is embedded with an explicit observation bound (`fuel`): a `none` result
  means the loop has not exited within `fuel` iterations — for every bound;
* `time.sleep` and all printing are dropped; the poll interval is not
  observable in the embedding;
* `botocore` formats a `ClientError` as
  `An error occurred (<code>) when calling the <op> operation: <msg>`;
  `str(e)` in the script is modelled by `keypairErrorText` following that
  documented external format.
-/

namespace AwsAutomation

/-- Configuration constant `KEY_NAME` of the script. -/
def KEY_NAME : String := "salman-key"

/-- Configuration constant `VPC_NAME` of the script. -/
def VPC_NAME : String := "salman-vpc"

/-- Configuration constant `AMI_ID` of the script. -/
def AMI_ID : String := "ami-0532be01f26a3de55"

/-- Configuration constant `INSTANCE_TYPE` of the script. -/
def INSTANCE_TYPE : String := "t2.micro"

/-- A VPC record as the script observes it: `describe_vpcs` filters on the
`Name` tag; the script enables both DNS attributes right after creation. -/
structure Vpc where
  vpcId : Nat
  nameTag : Option String
  enableDnsSupport : Bool
  enableDnsHostnames : Bool
deriving DecidableEq, Repr

/-- A subnet record; `describe_subnets` filters on `vpc-id` and
`cidr-block`.  `mapPublicIpOnLaunch` is false at creation unless the script
issues the `modify_subnet_attribute` call. -/
structure Subnet where
  subnetId : Nat
  vpcId : Nat
  cidrBlock : String
  nameTag : Option String
  availabilityZone : String
  mapPublicIpOnLaunch : Bool
deriving DecidableEq, Repr

/-- An internet gateway; `describe_internet_gateways` filters on
`attachment.vpc-id`, and the script attaches right after creating. -/
structure InternetGateway where
  internetGatewayId : Nat
  attachedVpcId : Option Nat
deriving DecidableEq, Repr

/-- A NAT gateway; `describe_nat_gateways` filters on `subnet-id`.  The
`state` field is the provider-reported lifecycle state. -/
structure NatGw where
  natGatewayId : Nat
  subnetId : Nat
  state : String
  allocationId : Nat
deriving DecidableEq, Repr

/-- One entry of a route table's `Routes` list. -/
structure RouteEntry where
  destinationCidrBlock : String
  gatewayId : Option Nat
  natGatewayId : Option Nat
deriving DecidableEq, Repr

/-- A route table with its routes and subnet associations;
`describe_route_tables` filters on `vpc-id` plus the `Name` tag, or looks
up directly by `RouteTableIds`. -/
structure RouteTable where
  routeTableId : Nat
  vpcId : Nat
  nameTag : Option String
  routes : List RouteEntry
  associations : List Nat
deriving DecidableEq, Repr

/-- One ingress permission as passed to
`authorize_security_group_ingress`. -/
structure IpPermission where
  ipProtocol : String
  fromPort : Int
  toPort : Int
  ipRanges : List String
deriving DecidableEq, Repr

/-- A security group; `describe_security_groups` filters on `group-name`
and `vpc-id`; the ingress rules are authorized once at creation. -/
structure SecurityGroup where
  groupId : Nat
  groupName : String
  description : String
  vpcId : Nat
  ingressRules : List IpPermission
deriving DecidableEq, Repr

/-- An EC2 instance.  `describe_instances` in the script filters only on
the `Name` tag — NOT on `instance-state-name` — so `lifecycleState` is
carried but never consulted by the lookup.  Reservations are modelled one
instance each, as produced by this script's `run_instances` with
`MaxCount=1`. -/
structure Ec2Instance where
  instanceId : Nat
  nameTag : Option String
  imageId : String
  instanceType : String
  keyName : String
  subnetId : Nat
  securityGroupIds : List Nat
  userData : String
  lifecycleState : String
deriving DecidableEq, Repr

/-- An application load balancer; `describe_load_balancers` looks up by
name. -/
structure Alb where
  loadBalancerArn : Nat
  name : String
  subnets : List Nat
  securityGroups : List Nat
  scheme : String
deriving DecidableEq, Repr

/-- A target group with its health-check settings.  The values a freshly
created group carries for the health-check fields are the provider's
documented defaults (path `/`, interval 30, timeout 5, healthy 5,
unhealthy 2) — the script's `create_target_group` call does not set
them. -/
structure TargetGroup where
  targetGroupArn : Nat
  name : String
  protocol : String
  port : Nat
  vpcId : Nat
  healthCheckPath : String
  healthCheckIntervalSeconds : Nat
  healthCheckTimeoutSeconds : Nat
  healthyThresholdCount : Nat
  unhealthyThresholdCount : Nat
deriving DecidableEq, Repr

/-- A listener; `describe_listeners` lists by load-balancer ARN and the
script scans for port 80. -/
structure Listener where
  listenerArn : Nat
  loadBalancerArn : Nat
  port : Nat
  targetGroupArn : Nat
deriving DecidableEq, Repr

/-- The locally persisted private-key file (`Key/salman-key.pem`).
`ownerReadOnly` records whether `os.chmod(KEY_PATH, stat.S_IRUSR)` has been
applied. -/
structure KeyFile where
  material : String
  ownerReadOnly : Bool
deriving DecidableEq, Repr

/-- The whole provider-plus-local state the script can observe.
`registeredTargets` holds `(targetGroupArn, instanceId, port)` triples;
`register_targets` on an already-registered target is a provider no-op, so
registration is modelled as insert-if-absent.  `nextId` feeds fresh
provider identifiers. -/
structure AwsState where
  awsKeyNames : List String
  localKeyFile : Option KeyFile
  vpcs : List Vpc
  subnets : List Subnet
  igws : List InternetGateway
  nats : List NatGw
  routeTables : List RouteTable
  securityGroups : List SecurityGroup
  instances : List Ec2Instance
  albs : List Alb
  targetGroups : List TargetGroup
  listeners : List Listener
  registeredTargets : List (Nat × Nat × Nat)
  nextId : Nat
deriving DecidableEq, Repr

/-- The empty provider state: nothing exists yet. -/
def emptyState : AwsState :=
  ⟨[], none, [], [], [], [], [], [], [], [], [], [], [], 0⟩

/-- One observable provider call of a run.  `createRes` carries the
provider identifiers the call references (its dependencies); `resolved`
marks the point at which a resource's provider id is in the script's
hands. -/
inductive Event where
  | find (kind : String)
  | createRes (kind : String) (deps : List Nat)
  | modifyRes (kind : String) (target : Nat)
  | registerCall (tgArn : Nat) (instanceIds : List Nat)
  | poll (index : Nat) (status : String)
  | resolved (kind : String) (provId : Nat)
deriving DecidableEq, Repr

/-- The provider ids a call references and therefore must already know. -/
def eventDeps : Event → List Nat
  | .createRes _ deps => deps
  | .modifyRes _ t => [t]
  | .registerCall tg is => tg :: is
  | _ => []

/-- The provider ids an event makes known. -/
def eventResolved : Event → List Nat
  | .resolved _ i => [i]
  | _ => []

/-- All ids a trace makes known, in order. -/
def resolvedIds : List Event → List Nat
  | [] => []
  | e :: tr => eventResolved e ++ resolvedIds tr

/-- Every call of the trace references only ids already known (either in
`known` or resolved earlier in the trace). -/
def depsOkB (known : List Nat) : List Event → Bool
  | [] => true
  | e :: tr => (eventDeps e).all (fun d => decide (d ∈ known)) && depsOkB (known ++ eventResolved e) tr

/-- Number of create calls (`create_*` / `run_instances` /
`allocate_address`) in a trace. -/
def countCreates : List Event → Nat
  | [] => 0
  | .createRes _ _ :: tr => countCreates tr + 1
  | _ :: tr => countCreates tr

/-- Number of modify calls in a trace. -/
def countModifies : List Event → Nat
  | [] => 0
  | .modifyRes _ _ :: tr => countModifies tr + 1
  | _ :: tr => countModifies tr

/-- The way `botocore` renders `str(e)` for a `ClientError` with the given
code and message, per its documented format (external collaborator). -/
def keypairErrorText (code msg : String) : String :=
  "An error occurred (" ++ code ++ ") when calling the DescribeKeyPairs operation: " ++ msg

/-- Substring containment on character lists — Python's `in` on strings. -/
def infixOfB (pat : List Char) : List Char → Bool
  | [] => pat.isEmpty
  | c :: rest => pat.isPrefixOf (c :: rest) || infixOfB pat rest

/-- Line 68 of the script: `if "InvalidKeyPair.NotFound" in str(e)` — a
substring test over the full rendered error text, message included. -/
def keypairErrorMatchesNotFound (code msg : String) : Bool :=
  infixOfB "InvalidKeyPair.NotFound".data (keypairErrorText code msg).data

/-- `get_or_create_keypair` (lines 58-78).  `describeErr` is the
`ClientError` that `describe_key_pairs` raises when the key is absent
(code, message); `keyMaterial` is what `create_key_pair` returns.  When the
key exists AWS-side the function only prints (whether or not the local
file exists) and changes nothing.  Otherwise the substring classifier
decides between the create path and re-raising.  On creation the material
is written to `KEY_PATH` and `os.chmod(KEY_PATH, stat.S_IRUSR)` is applied
(the chmod is assumed to succeed; the script ignores its failure). -/
def get_or_create_keypair (describeErr : String × String) (keyMaterial : String)
    (s : AwsState) : Except (String × String) (AwsState × List Event) :=
  if KEY_NAME ∈ s.awsKeyNames then
    .ok (s, [.find "key-pair"])
  else if keypairErrorMatchesNotFound describeErr.1 describeErr.2 then
    .ok ({ s with awsKeyNames := s.awsKeyNames ++ [KEY_NAME],
                  localKeyFile := some ⟨keyMaterial, true⟩ },
         [.find "key-pair", .createRes "key-pair" []])
  else
    .error describeErr

/-- The `describe_vpcs` filter of line 84: `tag:Name = VPC_NAME`. -/
def findVpcs (vpcs : List Vpc) : List Vpc :=
  vpcs.filter (fun v => decide (v.nameTag = some VPC_NAME))

/-- Provider id of the first VPC the filter returns, if any. -/
def firstVpcId (vpcs : List Vpc) : Option Nat :=
  (findVpcs vpcs).head?.map (fun v => v.vpcId)

/-- `get_or_create_vpc` (lines 83-93): adopt the first match, else create
(tagging and DNS attributes folded into the created record). -/
def get_or_create_vpc (s : AwsState) : Nat × AwsState × List Event :=
  match findVpcs s.vpcs with
  | v :: _ => (v.vpcId, s, [.find "vpc", .resolved "vpc" v.vpcId])
  | [] =>
    (s.nextId,
     { s with vpcs := s.vpcs ++ [⟨s.nextId, some VPC_NAME, true, true⟩],
              nextId := s.nextId + 1 },
     [.find "vpc", .createRes "vpc" [], .resolved "vpc" s.nextId])

/-- The `describe_subnets` filter of line 96: `vpc-id` and `cidr-block`. -/
def findSubnets (subnets : List Subnet) (vpc : Nat) (cidr : String) : List Subnet :=
  subnets.filter (fun sn => decide (sn.vpcId = vpc ∧ sn.cidrBlock = cidr))

/-- Provider id of the first subnet the filter returns, if any. -/
def firstSubnetId (subnets : List Subnet) (vpc : Nat) (cidr : String) : Option Nat :=
  (findSubnets subnets vpc cidr).head?.map (fun sn => sn.subnetId)

/-- `get_or_create_subnet` (lines 95-105): adopt the first match as-is,
else create, and only then — and only when `public` — issue
`modify_subnet_attribute` to set `MapPublicIpOnLaunch`. -/
def get_or_create_subnet (vpc : Nat) (cidr name : String) (pub : Bool) (az : String)
    (s : AwsState) : Nat × AwsState × List Event :=
  match findSubnets s.subnets vpc cidr with
  | sn :: _ => (sn.subnetId, s, [.find "subnet", .resolved "subnet" sn.subnetId])
  | [] =>
    (s.nextId,
     { s with subnets := s.subnets ++ [⟨s.nextId, vpc, cidr, some name, az, pub⟩],
              nextId := s.nextId + 1 },
     [.find "subnet", .createRes "subnet" [vpc], .resolved "subnet" s.nextId]
       ++ (if pub then [.modifyRes "subnet" s.nextId] else []))

/-- The `describe_internet_gateways` filter of line 108:
`attachment.vpc-id`. -/
def findIgws (igws : List InternetGateway) (vpc : Nat) : List InternetGateway :=
  igws.filter (fun g => decide (g.attachedVpcId = some vpc))

/-- Provider id of the first internet gateway the filter returns. -/
def firstIgwId (igws : List InternetGateway) (vpc : Nat) : Option Nat :=
  (findIgws igws vpc).head?.map (fun g => g.internetGatewayId)

/-- `get_or_create_igw` (lines 107-115); creation and the immediate
`attach_internet_gateway` are folded into one record. -/
def get_or_create_igw (vpc : Nat) (s : AwsState) : Nat × AwsState × List Event :=
  match findIgws s.igws vpc with
  | g :: _ => (g.internetGatewayId, s,
      [.find "internet-gateway", .resolved "internet-gateway" g.internetGatewayId])
  | [] =>
    (s.nextId,
     { s with igws := s.igws ++ [⟨s.nextId, some vpc⟩], nextId := s.nextId + 1 },
     [.find "internet-gateway", .createRes "internet-gateway" [vpc],
      .resolved "internet-gateway" s.nextId])

/-- `wait_for_nat` (lines 117-124).  The source loop is `while True:`
with no bound; `statusAt k` is the state `describe_nat_gateways` reports
at the k-th poll, and `fuel` is an observation bound on the loop: a `none`
first component means the loop has not exited within `fuel` iterations.
The returned trace records every poll issued. -/
def wait_for_nat (statusAt : Nat → String) : Nat → Nat → Option Nat × List Event
  | _, 0 => (none, [])
  | k, fuel + 1 =>
    if statusAt k = "available" then (some k, [.poll k (statusAt k)])
    else
      let r := wait_for_nat statusAt (k + 1) fuel
      (r.1, .poll k (statusAt k) :: r.2)

/-- The `describe_nat_gateways` filter of line 127: `subnet-id`. -/
def findNats (nats : List NatGw) (subnet : Nat) : List NatGw :=
  nats.filter (fun n => decide (n.subnetId = subnet))

/-- Provider id of the first NAT gateway the filter returns. -/
def firstNatId (nats : List NatGw) (subnet : Nat) : Option Nat :=
  (findNats nats subnet).head?.map (fun n => n.natGatewayId)

/-- `get_or_create_nat` (lines 126-134): an existing NAT gateway in the
subnet is adopted immediately — its `state` is never read; otherwise an
EIP is allocated, the gateway created, and `wait_for_nat` polls it.  The
run only continues (`some`) when the wait exits. -/
def get_or_create_nat (statusAt : Nat → String) (fuel : Nat) (publicSubnet : Nat)
    (s : AwsState) : Option (Nat × AwsState × List Event) :=
  match findNats s.nats publicSubnet with
  | n :: _ => some (n.natGatewayId, s,
      [.find "nat-gateway", .resolved "nat-gateway" n.natGatewayId])
  | [] =>
    match wait_for_nat statusAt 0 fuel with
    | (some _, polls) =>
      some (s.nextId + 1,
        { s with nats := s.nats ++ [⟨s.nextId + 1, publicSubnet, "available", s.nextId⟩],
                 nextId := s.nextId + 2 },
        [.find "nat-gateway", .createRes "eip" [],
         .createRes "nat-gateway" [publicSubnet]]
          ++ polls ++ [.resolved "nat-gateway" (s.nextId + 1)])
    | (none, _) => none

/-- The `describe_route_tables` filter of line 137: `vpc-id` and
`tag:Name`. -/
def findRouteTables (rts : List RouteTable) (vpc : Nat) (name : String) : List RouteTable :=
  rts.filter (fun t => decide (t.vpcId = vpc ∧ t.nameTag = some name))

/-- Provider id of the first route table the filter returns. -/
def firstRtId (rts : List RouteTable) (vpc : Nat) (name : String) : Option Nat :=
  (findRouteTables rts vpc name).head?.map (fun t => t.routeTableId)

/-- `get_or_create_route_table` (lines 136-144). -/
def get_or_create_route_table (vpc : Nat) (name : String) (s : AwsState) :
    Nat × AwsState × List Event :=
  match findRouteTables s.routeTables vpc name with
  | t :: _ => (t.routeTableId, s,
      [.find "route-table", .resolved "route-table" t.routeTableId])
  | [] =>
    (s.nextId,
     { s with routeTables := s.routeTables ++ [⟨s.nextId, vpc, some name, [], []⟩],
              nextId := s.nextId + 1 },
     [.find "route-table", .createRes "route-table" [vpc],
      .resolved "route-table" s.nextId])

/-- Lookup by `RouteTableIds=[rt_id]` as in lines 147 and 159. -/
def rtById (rts : List RouteTable) (rt : Nat) : Option RouteTable :=
  rts.find? (fun t => decide (t.routeTableId = rt))

/-- Whether the table with the given id has a route for `dest`. -/
def rtHasRouteTo (rts : List RouteTable) (rt : Nat) (dest : String) : Bool :=
  match rtById rts rt with
  | some t => t.routes.any (fun r => decide (r.destinationCidrBlock = dest))
  | none => false

/-- Whether the table with the given id is associated with the subnet. -/
def rtHasAssoc (rts : List RouteTable) (rt : Nat) (subnet : Nat) : Bool :=
  match rtById rts rt with
  | some t => t.associations.contains subnet
  | none => false

/-- `ensure_route` (lines 146-156): create the route only if no route for
the destination block is present.  (A lookup of an unknown table id would
be a provider error; the flow only calls this with ids it just
resolved.) -/
def ensure_route (rt : Nat) (dest : String) (igwId natId : Option Nat) (s : AwsState) :
    AwsState × List Event :=
  match rtById s.routeTables rt with
  | none => (s, [.find "route-table"])
  | some t =>
    if t.routes.any (fun r => decide (r.destinationCidrBlock = dest)) then
      (s, [.find "route-table"])
    else
      ({ s with routeTables := s.routeTables.map (fun t' =>
           if t'.routeTableId = rt then
             { t' with routes := t'.routes ++ [⟨dest, igwId, natId⟩] }
           else t') },
       [.find "route-table", .createRes "route" (rt :: (igwId.toList ++ natId.toList))])

/-- `associate_rt` (lines 158-163): associate only if absent. -/
def associate_rt (rt : Nat) (subnetId : Nat) (s : AwsState) : AwsState × List Event :=
  match rtById s.routeTables rt with
  | none => (s, [.find "route-table"])
  | some t =>
    if t.associations.contains subnetId then
      (s, [.find "route-table"])
    else
      ({ s with routeTables := s.routeTables.map (fun t' =>
           if t'.routeTableId = rt then
             { t' with associations := t'.associations ++ [subnetId] }
           else t') },
       [.find "route-table", .createRes "rt-association" [rt, subnetId]])

/-- The `describe_security_groups` filter of line 169: `group-name` and
`vpc-id`. -/
def findSgs (sgs : List SecurityGroup) (name : String) (vpc : Nat) : List SecurityGroup :=
  sgs.filter (fun g => decide (g.groupName = name ∧ g.vpcId = vpc))

/-- Provider id of the first security group the filter returns. -/
def firstSgId (sgs : List SecurityGroup) (name : String) (vpc : Nat) : Option Nat :=
  (findSgs sgs name vpc).head?.map (fun g => g.groupId)

/-- `get_or_create_sg` (lines 168-176); the immediate
`authorize_security_group_ingress` is folded into the created record. -/
def get_or_create_sg (name desc : String) (vpc : Nat) (rules : List IpPermission)
    (s : AwsState) : Nat × AwsState × List Event :=
  match findSgs s.securityGroups name vpc with
  | g :: _ => (g.groupId, s,
      [.find "security-group", .resolved "security-group" g.groupId])
  | [] =>
    (s.nextId,
     { s with securityGroups := s.securityGroups ++ [⟨s.nextId, name, desc, vpc, rules⟩],
              nextId := s.nextId + 1 },
     [.find "security-group", .createRes "security-group" [vpc],
      .resolved "security-group" s.nextId])

/-- The `describe_instances` filter of line 183: only `tag:Name` — no
instance-state filter. -/
def findInstancesByName (instances : List Ec2Instance) (name : String) : List Ec2Instance :=
  instances.filter (fun i => decide (i.nameTag = some name))

/-- Provider id of the first instance the filter returns. -/
def firstInstanceId (instances : List Ec2Instance) (name : String) : Option Nat :=
  (findInstancesByName instances name).head?.map (fun i => i.instanceId)

/-- `launch_instance` (lines 181-201): if the Name-tag query returns
anything at all, the first instance id is adopted and no launch happens;
otherwise `run_instances` is issued. -/
def launch_instance (name : String) (subnetId sgId : Nat) (userData : String)
    (s : AwsState) : Nat × AwsState × List Event :=
  match findInstancesByName s.instances name with
  | i :: _ => (i.instanceId, s, [.find "instance", .resolved "instance" i.instanceId])
  | [] =>
    let inst : Ec2Instance :=
      ⟨s.nextId, some name, AMI_ID, INSTANCE_TYPE, KEY_NAME, subnetId, [sgId],
       userData, "pending"⟩
    (s.nextId,
     { s with instances := s.instances ++ [inst], nextId := s.nextId + 1 },
     [.find "instance", .createRes "instance" [subnetId, sgId],
      .resolved "instance" s.nextId])

/-- The `describe_load_balancers` lookup of line 208, by name. -/
def findAlbs (albs : List Alb) (name : String) : List Alb :=
  albs.filter (fun a => decide (a.name = name))

/-- ARN of the first load balancer the lookup returns. -/
def firstAlbArn (albs : List Alb) (name : String) : Option Nat :=
  (findAlbs albs name).head?.map (fun a => a.loadBalancerArn)

/-- `get_or_create_alb` (lines 206-221); the `try/except
LoadBalancerNotFoundException` becomes the empty-lookup branch. -/
def get_or_create_alb (name : String) (subnets : List Nat) (sgId : Nat)
    (s : AwsState) : Nat × AwsState × List Event :=
  match findAlbs s.albs name with
  | a :: _ => (a.loadBalancerArn, s,
      [.find "load-balancer", .resolved "load-balancer" a.loadBalancerArn])
  | [] =>
    (s.nextId,
     { s with albs := s.albs ++ [⟨s.nextId, name, subnets, [sgId], "internet-facing"⟩],
              nextId := s.nextId + 1 },
     [.find "load-balancer", .createRes "load-balancer" (subnets ++ [sgId]),
      .resolved "load-balancer" s.nextId])

/-- The `describe_target_groups` lookup of line 225, by name. -/
def findTgs (tgs : List TargetGroup) (name : String) : List TargetGroup :=
  tgs.filter (fun t => decide (t.name = name))

/-- ARN of the first target group the lookup returns. -/
def firstTgArn (tgs : List TargetGroup) (name : String) : Option Nat :=
  (findTgs tgs name).head?.map (fun t => t.targetGroupArn)

/-- Lookup by `TargetGroupArns=[tg_arn]` as in line 256. -/
def tgByArn (tgs : List TargetGroup) (arn : Nat) : Option TargetGroup :=
  tgs.find? (fun t => decide (t.targetGroupArn = arn))

/-- Health-check path of the target group with the given ARN. -/
def tgHealthPath (tgs : List TargetGroup) (arn : Nat) : Option String :=
  (tgByArn tgs arn).map (fun t => t.healthCheckPath)

/-- `get_or_create_target_group` (lines 223-237); a created group carries
the provider's documented health-check defaults. -/
def get_or_create_target_group (name : String) (vpc : Nat) (s : AwsState) :
    Nat × AwsState × List Event :=
  match findTgs s.targetGroups name with
  | t :: _ => (t.targetGroupArn, s,
      [.find "target-group", .resolved "target-group" t.targetGroupArn])
  | [] =>
    let tg : TargetGroup := ⟨s.nextId, name, "HTTP", 80, vpc, "/", 30, 5, 5, 2⟩
    (s.nextId,
     { s with targetGroups := s.targetGroups ++ [tg], nextId := s.nextId + 1 },
     [.find "target-group", .createRes "target-group" [vpc],
      .resolved "target-group" s.nextId])

/-- `register_targets` (line 383): the provider treats re-registration as
a no-op, so each `(tg, instance, port)` triple is inserted only if
absent.  The call is issued unconditionally. -/
def insertIfAbsent (x : Nat × Nat × Nat) (l : List (Nat × Nat × Nat)) :
    List (Nat × Nat × Nat) :=
  if x ∈ l then l else l ++ [x]

def register_targets (tgArn : Nat) (targets : List (Nat × Nat)) (s : AwsState) :
    AwsState × List Event :=
  let regs := targets.foldl
    (fun acc t => insertIfAbsent (tgArn, t.1, t.2) acc) s.registeredTargets
  ({ s with registeredTargets := regs },
   [.registerCall tgArn (targets.map (fun t => t.1))])

/-- The listener scan of lines 240-244: listeners of the load balancer,
first one with port 80. -/
def findListeners (ls : List Listener) (alb : Nat) : List Listener :=
  ls.filter (fun l => decide (l.loadBalancerArn = alb ∧ l.port = 80))

/-- ARN of the first port-80 listener of the load balancer. -/
def firstListenerArn (ls : List Listener) (alb : Nat) : Option Nat :=
  (findListeners ls alb).head?.map (fun l => l.listenerArn)

/-- `setup_alb_listener` (lines 239-253). -/
def setup_alb_listener (albArn tgArn : Nat) (s : AwsState) : Nat × AwsState × List Event :=
  match findListeners s.listeners albArn with
  | l :: _ => (l.listenerArn, s, [.find "listener", .resolved "listener" l.listenerArn])
  | [] =>
    (s.nextId,
     { s with listeners := s.listeners ++ [⟨s.nextId, albArn, 80, tgArn⟩],
              nextId := s.nextId + 1 },
     [.find "listener", .createRes "listener" [albArn, tgArn],
      .resolved "listener" s.nextId])

/-- `setup_target_group_health_check` (lines 255-272): compare ONLY the
health-check path; when it differs, `modify_target_group` sets path,
interval 30, timeout 5 and thresholds 3/3.  (A lookup of an unknown ARN
would be a provider error; the flow only calls this with the ARN it just
resolved.) -/
def setup_target_group_health_check (tgArn : Nat) (path : String) (s : AwsState) :
    AwsState × List Event :=
  match tgByArn s.targetGroups tgArn with
  | none => (s, [.find "target-group"])
  | some t =>
    if t.healthCheckPath = path then
      (s, [.find "target-group"])
    else
      ({ s with targetGroups := s.targetGroups.map (fun t' =>
           if t'.targetGroupArn = tgArn then
             { t' with healthCheckPath := path,
                       healthCheckIntervalSeconds := 30,
                       healthCheckTimeoutSeconds := 5,
                       healthyThresholdCount := 3,
                       unhealthyThresholdCount := 3 }
           else t') },
       [.find "target-group", .modifyRes "target-group" tgArn])

/-- A managed database instance as `describe_db_instances` reports it. -/
structure DbInstance where
  dbInstanceIdentifier : String
  endpointAddress : String
deriving DecidableEq, Repr

/-- `get_or_create_rds` (lines 277-307).  `dbs` is what
`describe_db_instances` returns; `createSubnetGroupOutcome` and
`createDbInstanceOutcome` are the provider outcomes of the two create
calls (error value = provider error code).  The subnet-group create sits
in `try: ... except: pass` — a bare except, so its outcome never
influences the result; `create_db_instance` is unguarded, so any error it
reports propagates unchanged. -/
def get_or_create_rds (dbs : List DbInstance) (name : String)
    (createSubnetGroupOutcome : Except String Unit)
    (createDbInstanceOutcome : Except String Unit) : Except String String :=
  match dbs.find? (fun db => decide (db.dbInstanceIdentifier = name)) with
  | some db => .ok db.dbInstanceIdentifier
  | none =>
    match createSubnetGroupOutcome with
    | .ok _ =>
      match createDbInstanceOutcome with
      | .ok _ => .ok name
      | .error e => .error e
    | .error _ =>
      match createDbInstanceOutcome with
      | .ok _ => .ok name
      | .error e => .error e

/-- `user_data_1` of the script (lines 362-368). -/
def userData1 : String :=
  "#!/bin/bash\nyum update -y\nyum install -y httpd\nsystemctl start httpd\nsystemctl enable httpd\necho \x27<html><body><h1>Private Server 1</h1></body></html>\x27 > /var/www/html/index.html\n"

/-- `user_data_2` of the script (lines 369-375). -/
def userData2 : String :=
  "#!/bin/bash\nyum update -y\nyum install -y httpd\nsystemctl start httpd\nsystemctl enable httpd\necho \x27<html><body><h1>Private Server 2</h1></body></html>\x27 > /var/www/html/index.html\n"

/-- Ingress rules of `public-sg` (lines 349-353). -/
def publicSgRules : List IpPermission :=
  [⟨"tcp", 22, 22, ["0.0.0.0/0"]⟩, ⟨"tcp", 80, 80, ["0.0.0.0/0"]⟩]

/-- Ingress rules of `private-sg` (lines 354-359). -/
def privateSgRules : List IpPermission :=
  [⟨"tcp", 22, 22, ["10.0.0.0/16"]⟩, ⟨"tcp", 80, 80, ["10.0.0.0/16"]⟩,
   ⟨"icmp", -1, -1, ["10.0.0.0/16"]⟩]

/-- The provider ids a full run of the script resolves, one per resource
of the execution flow. -/
structure RunIds where
  vpc : Nat
  publicSubnet1 : Nat
  publicSubnet2 : Nat
  privateSubnet1 : Nat
  privateSubnet2 : Nat
  igw : Nat
  natGateway : Nat
  publicRt : Nat
  privateRt : Nat
  publicSg : Nat
  privateSg : Nat
  privateInstance1 : Nat
  privateInstance2 : Nat
  publicInstance : Nat
  albArn : Nat
  tgArn : Nat
  listenerArn : Nat
deriving DecidableEq, Repr

/-- The module-level execution flow (lines 324-385; the RDS and S3 steps
are commented out in the source and therefore absent).  `none` when the
key-pair step re-raises or the NAT wait has not exited within `fuel`
polls.  The result is the resolved ids, the final state, and the full
call trace. -/
def runScript (statusAt : Nat → String) (fuel : Nat) (describeKeyErr : String × String)
    (keyMaterial : String) (s0 : AwsState) : Option (RunIds × AwsState × List Event) :=
  match get_or_create_keypair describeKeyErr keyMaterial s0 with
  | .error _ => none
  | .ok (s1, t1) =>
    let r2 := get_or_create_vpc s1
    let v := r2.1
    let r3 := get_or_create_subnet v "10.0.1.0/24" "public-subnet-1" true "us-east-1a" r2.2.1
    let r4 := get_or_create_subnet v "10.0.4.0/24" "public-subnet-2" true "us-east-1b" r3.2.1
    let r5 := get_or_create_subnet v "10.0.2.0/24" "private-subnet-1" false "us-east-1a" r4.2.1
    let r6 := get_or_create_subnet v "10.0.3.0/24" "private-subnet-2" false "us-east-1b" r5.2.1
    let r7 := get_or_create_igw v r6.2.1
    match get_or_create_nat statusAt fuel r3.1 r7.2.1 with
    | none => none
    | some r8 =>
      let nat := r8.1
      let r9 := get_or_create_route_table v "public-rt" r8.2.1
      let r10 := ensure_route r9.1 "0.0.0.0/0" (some r7.1) none r9.2.1
      let r11 := associate_rt r9.1 r3.1 r10.1
      let r12 := associate_rt r9.1 r4.1 r11.1
      let r13 := get_or_create_route_table v "private-rt" r12.1
      let r14 := ensure_route r13.1 "0.0.0.0/0" none (some nat) r13.2.1
      let r15 := associate_rt r13.1 r5.1 r14.1
      let r16 := associate_rt r13.1 r6.1 r15.1
      let r17 := get_or_create_sg "public-sg" "Public SG" v publicSgRules r16.1
      let r18 := get_or_create_sg "private-sg" "Private SG" v privateSgRules r17.2.1
      let r19 := launch_instance "private-ec2-1" r5.1 r18.1 userData1 r18.2.1
      let r20 := launch_instance "private-ec2-2" r6.1 r18.1 userData2 r19.2.1
      let r21 := launch_instance "public-ec2-1" r3.1 r17.1 "" r20.2.1
      let r22 := get_or_create_alb "salman-alb" [r3.1, r4.1] r17.1 r21.2.1
      let r23 := get_or_create_target_group "salman-TG" v r22.2.1
      let r24 := register_targets r23.1 [(r19.1, 80), (r20.1, 80)] r23.2.1
      let r25 := setup_alb_listener r22.1 r23.1 r24.1
      let r26 := setup_target_group_health_check r23.1 "/index.html" r25.2.1
      some (⟨v, r3.1, r4.1, r5.1, r6.1, r7.1, nat, r9.1, r13.1, r17.1, r18.1,
             r19.1, r20.1, r21.1, r22.1, r23.1, r25.1⟩,
            r26.1,
            t1 ++ r2.2.2 ++ r3.2.2 ++ r4.2.2 ++ r5.2.2 ++ r6.2.2 ++ r7.2.2 ++ r8.2.2
              ++ r9.2.2 ++ r10.2 ++ r11.2 ++ r12.2 ++ r13.2.2 ++ r14.2 ++ r15.2
              ++ r16.2 ++ r17.2.2 ++ r18.2.2 ++ r19.2.2 ++ r20.2.2 ++ r21.2.2
              ++ r22.2.2 ++ r23.2.2 ++ r24.2 ++ r25.2.2 ++ r26.2)

/-- Provider state for the key-pair scenario: the key exists AWS-side,
no local key file is present. -/
def stateC6 : AwsState := { emptyState with awsKeyNames := ["salman-key"] }

/-- Provider state for the subnet-drift scenario: a subnet matching the
(vpc, CIDR) lookup key exists with `MapPublicIpOnLaunch` unset. -/
def stateC7 : AwsState :=
  { emptyState with
    subnets := [⟨7, 1, "10.0.1.0/24", some "public-subnet-1", "us-east-1a", false⟩],
    nextId := 8 }

/-- Provider state for the target-group-drift scenario: the health-check
path already matches the desired `/index.html` but the thresholds (5/2)
differ from the desired 3/3. -/
def stateC8 : AwsState :=
  { emptyState with
    targetGroups := [⟨9, "salman-TG", "HTTP", 80, 1, "/index.html", 30, 5, 5, 2⟩],
    nextId := 10 }

/-- Provider state for the instance-lookup scenario: a terminated instance
carries the matching Name tag. -/
def stateC9 : AwsState :=
  { emptyState with
    instances := [⟨11, some "private-ec2-1", "ami-0532be01f26a3de55", "t2.micro",
      "salman-key", 1, [2], "", "terminated"⟩],
    nextId := 12 }

/-- Provider state for the NAT-adoption scenario: a NAT gateway exists in
the public subnet but its state is still `pending`. -/
def stateC10 : AwsState :=
  { emptyState with nats := [⟨21, 3, "pending", 20⟩], nextId := 22 }

/-- A provider state in which every resource of the execution flow already
matches its desired attributes and carries the given provider ids: exactly
what every lookup of a re-run will find.  `runScript` establishes this
predicate (for the ids it returns) and short-circuits on it. -/
structure Converged (ids : RunIds) (s : AwsState) : Prop where
  kp : KEY_NAME ∈ s.awsKeyNames
  vpc : firstVpcId s.vpcs = some ids.vpc
  ps1 : firstSubnetId s.subnets ids.vpc "10.0.1.0/24" = some ids.publicSubnet1
  ps2 : firstSubnetId s.subnets ids.vpc "10.0.4.0/24" = some ids.publicSubnet2
  prs1 : firstSubnetId s.subnets ids.vpc "10.0.2.0/24" = some ids.privateSubnet1
  prs2 : firstSubnetId s.subnets ids.vpc "10.0.3.0/24" = some ids.privateSubnet2
  igw : firstIgwId s.igws ids.vpc = some ids.igw
  nat : firstNatId s.nats ids.publicSubnet1 = some ids.natGateway
  pubRt : firstRtId s.routeTables ids.vpc "public-rt" = some ids.publicRt
  privRt : firstRtId s.routeTables ids.vpc "private-rt" = some ids.privateRt
  pubRoute : rtHasRouteTo s.routeTables ids.publicRt "0.0.0.0/0" = true
  privRoute : rtHasRouteTo s.routeTables ids.privateRt "0.0.0.0/0" = true
  pubAssoc1 : rtHasAssoc s.routeTables ids.publicRt ids.publicSubnet1 = true
  pubAssoc2 : rtHasAssoc s.routeTables ids.publicRt ids.publicSubnet2 = true
  privAssoc1 : rtHasAssoc s.routeTables ids.privateRt ids.privateSubnet1 = true
  privAssoc2 : rtHasAssoc s.routeTables ids.privateRt ids.privateSubnet2 = true
  pubSg : firstSgId s.securityGroups "public-sg" ids.vpc = some ids.publicSg
  privSg : firstSgId s.securityGroups "private-sg" ids.vpc = some ids.privateSg
  inst1 : firstInstanceId s.instances "private-ec2-1" = some ids.privateInstance1
  inst2 : firstInstanceId s.instances "private-ec2-2" = some ids.privateInstance2
  instPub : firstInstanceId s.instances "public-ec2-1" = some ids.publicInstance
  alb : firstAlbArn s.albs "salman-alb" = some ids.albArn
  tg : firstTgArn s.targetGroups "salman-TG" = some ids.tgArn
  reg1 : (ids.tgArn, ids.privateInstance1, 80) ∈ s.registeredTargets
  reg2 : (ids.tgArn, ids.privateInstance2, 80) ∈ s.registeredTargets
  lst : firstListenerArn s.listeners ids.albArn = some ids.listenerArn
  health : tgHealthPath s.targetGroups ids.tgArn = some "/index.html"

/-- The trace a run issues from a `Converged` state: finds and resolves
only (plus the unconditional `register_targets` call) — no create and no
modify calls. -/
def convergedTrace (ids : RunIds) : List Event :=
  [.find "key-pair",
   .find "vpc", .resolved "vpc" ids.vpc,
   .find "subnet", .resolved "subnet" ids.publicSubnet1,
   .find "subnet", .resolved "subnet" ids.publicSubnet2,
   .find "subnet", .resolved "subnet" ids.privateSubnet1,
   .find "subnet", .resolved "subnet" ids.privateSubnet2,
   .find "internet-gateway", .resolved "internet-gateway" ids.igw,
   .find "nat-gateway", .resolved "nat-gateway" ids.natGateway,
   .find "route-table", .resolved "route-table" ids.publicRt,
   .find "route-table", .find "route-table", .find "route-table",
   .find "route-table", .resolved "route-table" ids.privateRt,
   .find "route-table", .find "route-table", .find "route-table",
   .find "security-group", .resolved "security-group" ids.publicSg,
   .find "security-group", .resolved "security-group" ids.privateSg,
   .find "instance", .resolved "instance" ids.privateInstance1,
   .find "instance", .resolved "instance" ids.privateInstance2,
   .find "instance", .resolved "instance" ids.publicInstance,
   .find "load-balancer", .resolved "load-balancer" ids.albArn,
   .find "target-group", .resolved "target-group" ids.tgArn,
   .registerCall ids.tgArn [ids.privateInstance1, ids.privateInstance2],
   .find "listener", .resolved "listener" ids.listenerArn,
   .find "target-group"]

/-! ### Generic lemmas about traces -/

theorem resolvedIds_append (t1 t2 : List Event) :
    resolvedIds (t1 ++ t2) = resolvedIds t1 ++ resolvedIds t2 := by
  induction t1 with
  | nil => simp [resolvedIds]
  | cons e t ih => simp [resolvedIds, ih]

theorem depsOkB_append : ∀ (t1 : List Event) {K : List Nat} {t2 : List Event},
    depsOkB K t1 = true → depsOkB (K ++ resolvedIds t1) t2 = true →
    depsOkB K (t1 ++ t2) = true := by
  intro t1
  induction t1 with
  | nil =>
    intro K t2 _ h2
    simpa [resolvedIds] using h2
  | cons e t ih =>
    intro K t2 h1 h2
    simp only [depsOkB, Bool.and_eq_true] at h1 ⊢
    refine ⟨h1.1, ih h1.2 ?_⟩
    simpa [resolvedIds, List.append_assoc] using h2

theorem depsOkB_mono : ∀ (t : List Event) (K K' : List Nat),
    (∀ d, d ∈ K → d ∈ K') → depsOkB K t = true → depsOkB K' t = true := by
  intro t
  induction t with
  | nil => intro K K' _ _; rfl
  | cons e t ih =>
    intro K K' hsub h
    simp only [depsOkB, Bool.and_eq_true, List.all_eq_true, decide_eq_true_eq] at h ⊢
    obtain ⟨h1, h2⟩ := h
    refine ⟨fun d hd => hsub d (h1 d hd), ih _ _ ?_ h2⟩
    intro d hd
    rcases List.mem_append.mp hd with hd | hd
    · exact List.mem_append.mpr (Or.inl (hsub d hd))
    · exact List.mem_append.mpr (Or.inr hd)

theorem depsOkB_get : ∀ (t : List Event) (K : List Nat), depsOkB K t = true →
    ∀ (i : Nat) (e : Event), t[i]? = some e → ∀ d ∈ eventDeps e,
      d ∈ K ∨ ∃ j : Nat, j < i ∧ ∃ kind, t[j]? = some (Event.resolved kind d) := by
  intro t
  induction t with
  | nil => intro K _ i e hi; simp at hi
  | cons ev t ih =>
    intro K h i e hi d hd
    simp only [depsOkB, Bool.and_eq_true, List.all_eq_true, decide_eq_true_eq] at h
    obtain ⟨h1, h2⟩ := h
    cases i with
    | zero =>
      simp only [List.getElem?_cons_zero, Option.some.injEq] at hi
      subst hi
      exact Or.inl (h1 d hd)
    | succ i =>
      simp only [List.getElem?_cons_succ] at hi
      rcases ih _ h2 i e hi d hd with hk | ⟨j, hj, kind, hjj⟩
      · rcases List.mem_append.mp hk with hk | hk
        · exact Or.inl hk
        · cases ev with
          | resolved kind i0 =>
            simp only [eventResolved, List.mem_singleton] at hk
            subst hk
            refine Or.inr ⟨0, Nat.succ_pos _, kind, ?_⟩
            simp
          | find k => simp [eventResolved] at hk
          | createRes k dp => simp [eventResolved] at hk
          | modifyRes k tgt => simp [eventResolved] at hk
          | registerCall tg is => simp [eventResolved] at hk
          | poll k st => simp [eventResolved] at hk
      · refine Or.inr ⟨j + 1, Nat.succ_lt_succ hj, kind, ?_⟩
        simpa using hjj

theorem resolvedIds_of_neutral : ∀ (l : List Event),
    (∀ e ∈ l, eventResolved e = []) → resolvedIds l = [] := by
  intro l
  induction l with
  | nil => intro _; rfl
  | cons e t ih =>
    intro h
    simp only [resolvedIds, h e (List.mem_cons_self e t), List.nil_append]
    exact ih fun x hx => h x (List.mem_cons_of_mem e hx)

theorem depsOkB_append_neutral : ∀ (l : List Event),
    (∀ e ∈ l, eventDeps e = [] ∧ eventResolved e = []) →
    ∀ (K : List Nat) (t : List Event), depsOkB K t = true → depsOkB K (l ++ t) = true := by
  intro l
  induction l with
  | nil => intro _ K t h; simpa using h
  | cons e l ih =>
    intro h K t ht
    have he := h e (List.mem_cons_self e l)
    simp only [List.cons_append, depsOkB, he.1, he.2, List.all_nil, List.append_nil,
      Bool.true_and]
    exact ih (fun x hx => h x (List.mem_cons_of_mem e hx)) K t ht

/-! ### Lemmas about the NAT wait loop -/

theorem wait_for_nat_polls (o : Nat → String) :
    ∀ (fuel k : Nat), ∀ e ∈ (wait_for_nat o k fuel).2, ∃ j st, e = Event.poll j st := by
  intro fuel
  induction fuel with
  | zero => intro k e he; simp [wait_for_nat] at he
  | succ fuel ih =>
    intro k e he
    by_cases hc : o k = "available"
    · simp only [wait_for_nat, if_pos hc, List.mem_singleton] at he
      exact ⟨k, o k, he⟩
    · simp only [wait_for_nat, if_neg hc, List.mem_cons] at he
      rcases he with he | he
      · exact ⟨k, o k, he⟩
      · exact ih (k + 1) e he

theorem wait_for_nat_none (o : Nat → String) (h : ∀ j, o j ≠ "available") :
    ∀ (fuel k : Nat), (wait_for_nat o k fuel).1 = none := by
  intro fuel
  induction fuel with
  | zero => intro k; rfl
  | succ fuel ih =>
    intro k
    simp only [wait_for_nat, if_neg (h k)]
    exact ih (k + 1)

theorem wait_for_nat_some (o : Nat → String) :
    ∀ (fuel k0 k : Nat), (wait_for_nat o k0 fuel).1 = some k →
      o k = "available" ∧ ∀ j, k0 ≤ j → j < k → o j ≠ "available" := by
  intro fuel
  induction fuel with
  | zero => intro k0 k h; simp [wait_for_nat] at h
  | succ fuel ih =>
    intro k0 k h
    by_cases hc : o k0 = "available"
    · simp only [wait_for_nat, if_pos hc, Option.some.injEq] at h
      subst h
      exact ⟨hc, fun j hj1 hj2 => absurd (Nat.lt_of_le_of_lt hj1 hj2) (Nat.lt_irrefl _)⟩
    · simp only [wait_for_nat, if_neg hc] at h
      obtain ⟨ha, hb⟩ := ih (k0 + 1) k h
      refine ⟨ha, fun j hj1 hj2 => ?_⟩
      rcases Nat.lt_or_ge j (k0 + 1) with hj | hj
      · have : j = k0 := Nat.le_antisymm (Nat.lt_succ_iff.mp hj) hj1
        subst this
        exact hc
      · exact hb j hj hj2

/-! ### find? helpers -/

theorem find?_append_some {α : Type} {p : α → Bool} {l l' : List α} {x : α}
    (h : l.find? p = some x) : (l ++ l').find? p = some x := by
  rw [List.find?_append, h]
  rfl

theorem find?_isSome_append {α : Type} {p : α → Bool} {l l' : List α}
    (h : (l.find? p).isSome = true) : ((l ++ l').find? p).isSome = true := by
  rw [List.find?_append]
  cases hx : l.find? p with
  | none => rw [hx] at h; simp at h
  | some x => simp [Option.or]

/-! ### Route-table and target-group update lemmas -/

theorem rtById_map (l : List RouteTable) (rt0 : Nat) (f : RouteTable → RouteTable)
    (hf : ∀ t, (f t).routeTableId = t.routeTableId) :
    rtById (l.map f) rt0 = (rtById l rt0).map f := by
  unfold rtById
  rw [List.find?_map]
  congr 1
  congr 1
  funext t
  simp [Function.comp, hf t]

theorem rtById_some_id {l : List RouteTable} {rt : Nat} {t : RouteTable}
    (h : rtById l rt = some t) : t.routeTableId = rt := by
  have := List.find?_some h
  simpa using this

theorem firstRtId_map (l : List RouteTable) (v : Nat) (n : String) (f : RouteTable → RouteTable)
    (hfid : ∀ t, (f t).routeTableId = t.routeTableId)
    (hfv : ∀ t, (f t).vpcId = t.vpcId) (hfn : ∀ t, (f t).nameTag = t.nameTag) :
    firstRtId (l.map f) v n = firstRtId l v n := by
  unfold firstRtId findRouteTables
  rw [List.filter_map]
  have hp : ((fun t => decide (t.vpcId = v ∧ t.nameTag = some n)) ∘ f)
      = fun t => decide (t.vpcId = v ∧ t.nameTag = some n) := by
    funext t
    simp [Function.comp, hfv t, hfn t]
  rw [hp, List.head?_map, Option.map_map]
  congr 1
  funext t
  simp [Function.comp, hfid t]

theorem rtHasRouteTo_map_mono (l : List RouteTable) (rt0 : Nat) (d : String)
    (f : RouteTable → RouteTable) (hfid : ∀ t, (f t).routeTableId = t.routeTableId)
    (hfr : ∀ t, ∀ r ∈ t.routes, r ∈ (f t).routes)
    (h : rtHasRouteTo l rt0 d = true) : rtHasRouteTo (l.map f) rt0 d = true := by
  unfold rtHasRouteTo at h ⊢
  rw [rtById_map l rt0 f hfid]
  cases hx : rtById l rt0 with
  | none => rw [hx] at h; simp at h
  | some t =>
    rw [hx] at h
    rw [List.any_eq_true] at h
    obtain ⟨r, hr, hrd⟩ := h
    simp only [Option.map_some']
    rw [List.any_eq_true]
    exact ⟨r, hfr t r hr, hrd⟩

theorem rtHasAssoc_map_mono (l : List RouteTable) (rt0 sn : Nat)
    (f : RouteTable → RouteTable) (hfid : ∀ t, (f t).routeTableId = t.routeTableId)
    (hfa : ∀ t, ∀ a ∈ t.associations, a ∈ (f t).associations)
    (h : rtHasAssoc l rt0 sn = true) : rtHasAssoc (l.map f) rt0 sn = true := by
  unfold rtHasAssoc at h ⊢
  rw [rtById_map l rt0 f hfid]
  cases hx : rtById l rt0 with
  | none => rw [hx] at h; simp at h
  | some t =>
    rw [hx] at h
    simp only [Option.map_some']
    simp only [List.contains, List.elem_iff] at h ⊢
    exact hfa t sn h

theorem rtById_isSome_map (l : List RouteTable) (rt0 : Nat) (f : RouteTable → RouteTable)
    (hfid : ∀ t, (f t).routeTableId = t.routeTableId)
    (h : (rtById l rt0).isSome = true) : (rtById (l.map f) rt0).isSome = true := by
  rw [rtById_map l rt0 f hfid]
  cases hx : rtById l rt0 with
  | none => rw [hx] at h; simp at h
  | some t => simp

theorem rtHasRouteTo_update (l : List RouteTable) (rt : Nat) (e : RouteEntry)
    (hsome : (rtById l rt).isSome = true) :
    rtHasRouteTo (l.map (fun t' => if t'.routeTableId = rt then
      { t' with routes := t'.routes ++ [e] } else t')) rt e.destinationCidrBlock = true := by
  unfold rtHasRouteTo
  rw [rtById_map]
  · cases hx : rtById l rt with
    | none => rw [hx] at hsome; simp at hsome
    | some t =>
      have hid : t.routeTableId = rt := rtById_some_id hx
      simp only [Option.map_some', if_pos hid, List.any_append]
      simp
  · intro t
    by_cases ht : t.routeTableId = rt <;> simp [ht]

theorem rtHasAssoc_update (l : List RouteTable) (rt sn : Nat)
    (hsome : (rtById l rt).isSome = true) :
    rtHasAssoc (l.map (fun t' => if t'.routeTableId = rt then
      { t' with associations := t'.associations ++ [sn] } else t')) rt sn = true := by
  unfold rtHasAssoc
  rw [rtById_map]
  · cases hx : rtById l rt with
    | none => rw [hx] at hsome; simp at hsome
    | some t =>
      have hid : t.routeTableId = rt := rtById_some_id hx
      simp only [Option.map_some', if_pos hid]
      simp [List.contains, List.elem_iff]
  · intro t
    by_cases ht : t.routeTableId = rt <;> simp [ht]

theorem tgByArn_map (l : List TargetGroup) (arn0 : Nat) (f : TargetGroup → TargetGroup)
    (hf : ∀ t, (f t).targetGroupArn = t.targetGroupArn) :
    tgByArn (l.map f) arn0 = (tgByArn l arn0).map f := by
  unfold tgByArn
  rw [List.find?_map]
  congr 1
  congr 1
  funext t
  simp [Function.comp, hf t]

theorem tgByArn_some_id {l : List TargetGroup} {arn : Nat} {t : TargetGroup}
    (h : tgByArn l arn = some t) : t.targetGroupArn = arn := by
  have := List.find?_some h
  simpa using this

theorem firstTgArn_map (l : List TargetGroup) (n : String) (f : TargetGroup → TargetGroup)
    (hfarn : ∀ t, (f t).targetGroupArn = t.targetGroupArn)
    (hfn : ∀ t, (f t).name = t.name) :
    firstTgArn (l.map f) n = firstTgArn l n := by
  unfold firstTgArn findTgs
  rw [List.filter_map]
  have hp : ((fun t => decide (t.name = n)) ∘ f) = fun t => decide (t.name = n) := by
    funext t
    simp [Function.comp, hfn t]
  rw [hp, List.head?_map, Option.map_map]
  congr 1
  funext t
  simp [Function.comp, hfarn t]

theorem tgHealthPath_update (l : List TargetGroup) (tg : Nat) (path : String)
    (hsome : (tgByArn l tg).isSome = true) :
    tgHealthPath (l.map (fun t' => if t'.targetGroupArn = tg then
      { t' with healthCheckPath := path, healthCheckIntervalSeconds := 30,
                healthCheckTimeoutSeconds := 5, healthyThresholdCount := 3,
                unhealthyThresholdCount := 3 } else t')) tg = some path := by
  unfold tgHealthPath
  rw [tgByArn_map]
  · cases hx : tgByArn l tg with
    | none => rw [hx] at hsome; simp at hsome
    | some t =>
      have hid : t.targetGroupArn = tg := tgByArn_some_id hx
      simp [Option.map_some', if_pos hid]
  · intro t
    by_cases ht : t.targetGroupArn = tg <;> simp [ht]

/-! ### Per-step specifications: what each step establishes, what it leaves
untouched, and its trace shape -/

theorem get_or_create_keypair_spec {e : String × String} {m : String} {s s' : AwsState}
    {tr : List Event} (h : get_or_create_keypair e m s = .ok (s', tr)) :
    KEY_NAME ∈ s'.awsKeyNames
    ∧ s'.vpcs = s.vpcs ∧ s'.subnets = s.subnets ∧ s'.igws = s.igws ∧ s'.nats = s.nats
    ∧ s'.routeTables = s.routeTables ∧ s'.securityGroups = s.securityGroups
    ∧ s'.instances = s.instances ∧ s'.albs = s.albs ∧ s'.targetGroups = s.targetGroups
    ∧ s'.listeners = s.listeners ∧ s'.registeredTargets = s.registeredTargets
    ∧ resolvedIds tr = []
    ∧ ∀ K : List Nat, depsOkB K tr = true := by
  unfold get_or_create_keypair at h
  by_cases hmem : KEY_NAME ∈ s.awsKeyNames
  · rw [if_pos hmem] at h
    simp only [Except.ok.injEq, Prod.mk.injEq] at h
    obtain ⟨rfl, rfl⟩ := h
    refine ⟨hmem, rfl, rfl, rfl, rfl, rfl, rfl, rfl, rfl, rfl, rfl, rfl, ?_, ?_⟩
    · simp [resolvedIds, eventResolved]
    · intro K
      simp [depsOkB, eventDeps, eventResolved]
  · rw [if_neg hmem] at h
    by_cases hcl : keypairErrorMatchesNotFound e.1 e.2
    · rw [if_pos hcl] at h
      simp only [Except.ok.injEq, Prod.mk.injEq] at h
      obtain ⟨rfl, rfl⟩ := h
      refine ⟨?_, rfl, rfl, rfl, rfl, rfl, rfl, rfl, rfl, rfl, rfl, rfl, ?_, ?_⟩
      · simp
      · simp [resolvedIds, eventResolved]
      · intro K
        simp [depsOkB, eventDeps, eventResolved]
    · rw [if_neg hcl] at h
      simp at h

theorem get_or_create_vpc_spec {s : AwsState} {i : Nat} {s' : AwsState} {tr : List Event}
    (h : get_or_create_vpc s = (i, s', tr)) :
    firstVpcId s'.vpcs = some i
    ∧ s'.awsKeyNames = s.awsKeyNames ∧ s'.subnets = s.subnets ∧ s'.igws = s.igws
    ∧ s'.nats = s.nats ∧ s'.routeTables = s.routeTables
    ∧ s'.securityGroups = s.securityGroups ∧ s'.instances = s.instances
    ∧ s'.albs = s.albs ∧ s'.targetGroups = s.targetGroups ∧ s'.listeners = s.listeners
    ∧ s'.registeredTargets = s.registeredTargets
    ∧ resolvedIds tr = [i]
    ∧ ∀ K : List Nat, depsOkB K tr = true := by
  unfold get_or_create_vpc at h
  cases hf : findVpcs s.vpcs with
  | cons v l =>
    rw [hf] at h
    simp only [Prod.mk.injEq] at h
    obtain ⟨rfl, rfl, rfl⟩ := h
    refine ⟨?_, rfl, rfl, rfl, rfl, rfl, rfl, rfl, rfl, rfl, rfl, rfl, ?_, ?_⟩
    · unfold firstVpcId
      rw [hf]
      rfl
    · simp [resolvedIds, eventResolved]
    · intro K
      simp [depsOkB, eventDeps, eventResolved]
  | nil =>
    rw [hf] at h
    simp only [Prod.mk.injEq] at h
    obtain ⟨rfl, rfl, rfl⟩ := h
    refine ⟨?_, rfl, rfl, rfl, rfl, rfl, rfl, rfl, rfl, rfl, rfl, rfl, ?_, ?_⟩
    · unfold firstVpcId
      unfold findVpcs at hf ⊢
      rw [List.filter_append, hf]
      simp
    · simp [resolvedIds, eventResolved]
    · intro K
      simp [depsOkB, eventDeps, eventResolved]

theorem get_or_create_subnet_spec {v : Nat} {c n : String} {p : Bool} {a : String}
    {s : AwsState} {i : Nat} {s' : AwsState} {tr : List Event}
    (h : get_or_create_subnet v c n p a s = (i, s', tr)) :
    firstSubnetId s'.subnets v c = some i
    ∧ (∀ (v' : Nat) (c' : String), c' ≠ c →
        firstSubnetId s'.subnets v' c' = firstSubnetId s.subnets v' c')
    ∧ s'.awsKeyNames = s.awsKeyNames ∧ s'.vpcs = s.vpcs ∧ s'.igws = s.igws
    ∧ s'.nats = s.nats ∧ s'.routeTables = s.routeTables
    ∧ s'.securityGroups = s.securityGroups ∧ s'.instances = s.instances
    ∧ s'.albs = s.albs ∧ s'.targetGroups = s.targetGroups ∧ s'.listeners = s.listeners
    ∧ s'.registeredTargets = s.registeredTargets
    ∧ resolvedIds tr = [i]
    ∧ ∀ K : List Nat, v ∈ K → depsOkB K tr = true := by
  unfold get_or_create_subnet at h
  cases hf : findSubnets s.subnets v c with
  | cons sn l =>
    rw [hf] at h
    simp only [Prod.mk.injEq] at h
    obtain ⟨rfl, rfl, rfl⟩ := h
    refine ⟨?_, ?_, rfl, rfl, rfl, rfl, rfl, rfl, rfl, rfl, rfl, rfl, rfl, ?_, ?_⟩
    · unfold firstSubnetId
      rw [hf]
      rfl
    · intro v' c' _
      rfl
    · simp [resolvedIds, eventResolved]
    · intro K _
      simp [depsOkB, eventDeps, eventResolved]
  | nil =>
    rw [hf] at h
    simp only [Prod.mk.injEq] at h
    obtain ⟨rfl, rfl, rfl⟩ := h
    refine ⟨?_, ?_, rfl, rfl, rfl, rfl, rfl, rfl, rfl, rfl, rfl, rfl, rfl, ?_, ?_⟩
    · unfold firstSubnetId
      unfold findSubnets at hf ⊢
      rw [List.filter_append, hf]
      simp
    · intro v' c' hne
      unfold firstSubnetId
      unfold findSubnets at hf ⊢
      rw [List.filter_append]
      have : (List.filter (fun sn => decide (sn.vpcId = v' ∧ sn.cidrBlock = c'))
          [(⟨s.nextId, v, c, some n, a, p⟩ : Subnet)]) = [] := by
        simp [Ne.symm hne]
      rw [this, List.append_nil]
    · cases p <;> simp [resolvedIds, eventResolved]
    · intro K hK
      cases p <;> simp [depsOkB, eventDeps, eventResolved, hK]

theorem get_or_create_igw_spec {v : Nat} {s : AwsState} {i : Nat} {s' : AwsState}
    {tr : List Event} (h : get_or_create_igw v s = (i, s', tr)) :
    firstIgwId s'.igws v = some i
    ∧ s'.awsKeyNames = s.awsKeyNames ∧ s'.vpcs = s.vpcs ∧ s'.subnets = s.subnets
    ∧ s'.nats = s.nats ∧ s'.routeTables = s.routeTables
    ∧ s'.securityGroups = s.securityGroups ∧ s'.instances = s.instances
    ∧ s'.albs = s.albs ∧ s'.targetGroups = s.targetGroups ∧ s'.listeners = s.listeners
    ∧ s'.registeredTargets = s.registeredTargets
    ∧ resolvedIds tr = [i]
    ∧ ∀ K : List Nat, v ∈ K → depsOkB K tr = true := by
  unfold get_or_create_igw at h
  cases hf : findIgws s.igws v with
  | cons g l =>
    rw [hf] at h
    simp only [Prod.mk.injEq] at h
    obtain ⟨rfl, rfl, rfl⟩ := h
    refine ⟨?_, rfl, rfl, rfl, rfl, rfl, rfl, rfl, rfl, rfl, rfl, rfl, ?_, ?_⟩
    · unfold firstIgwId
      rw [hf]
      rfl
    · simp [resolvedIds, eventResolved]
    · intro K _
      simp [depsOkB, eventDeps, eventResolved]
  | nil =>
    rw [hf] at h
    simp only [Prod.mk.injEq] at h
    obtain ⟨rfl, rfl, rfl⟩ := h
    refine ⟨?_, rfl, rfl, rfl, rfl, rfl, rfl, rfl, rfl, rfl, rfl, rfl, ?_, ?_⟩
    · unfold firstIgwId
      unfold findIgws at hf ⊢
      rw [List.filter_append, hf]
      simp
    · simp [resolvedIds, eventResolved]
    · intro K hK
      simp [depsOkB, eventDeps, eventResolved, hK]

theorem get_or_create_nat_spec {o : Nat → String} {fuel ps : Nat} {s : AwsState}
    {i : Nat} {s' : AwsState} {tr : List Event}
    (h : get_or_create_nat o fuel ps s = some (i, s', tr)) :
    firstNatId s'.nats ps = some i
    ∧ s'.awsKeyNames = s.awsKeyNames ∧ s'.vpcs = s.vpcs ∧ s'.subnets = s.subnets
    ∧ s'.igws = s.igws ∧ s'.routeTables = s.routeTables
    ∧ s'.securityGroups = s.securityGroups ∧ s'.instances = s.instances
    ∧ s'.albs = s.albs ∧ s'.targetGroups = s.targetGroups ∧ s'.listeners = s.listeners
    ∧ s'.registeredTargets = s.registeredTargets
    ∧ resolvedIds tr = [i]
    ∧ ∀ K : List Nat, ps ∈ K → depsOkB K tr = true := by
  unfold get_or_create_nat at h
  cases hf : findNats s.nats ps with
  | cons nn l =>
    rw [hf] at h
    simp only [Option.some.injEq, Prod.mk.injEq] at h
    obtain ⟨rfl, rfl, rfl⟩ := h
    refine ⟨?_, rfl, rfl, rfl, rfl, rfl, rfl, rfl, rfl, rfl, rfl, rfl, ?_, ?_⟩
    · unfold firstNatId
      rw [hf]
      rfl
    · simp [resolvedIds, eventResolved]
    · intro K _
      simp [depsOkB, eventDeps, eventResolved]
  | nil =>
    rw [hf] at h
    cases hw : wait_for_nat o 0 fuel with
    | mk r polls =>
      rw [hw] at h
      cases r with
      | none => simp at h
      | some k =>
        simp only [Option.some.injEq, Prod.mk.injEq] at h
        obtain ⟨rfl, rfl, rfl⟩ := h
        have hpolls : ∀ e ∈ polls, ∃ j st, e = Event.poll j st := by
          intro e he
          exact wait_for_nat_polls o fuel 0 e (by rw [hw]; exact he)
        have hpollsRes : ∀ e ∈ polls, eventResolved e = [] := by
          intro e he
          obtain ⟨j, st, rfl⟩ := hpolls e he
          rfl
        have hpollsNeutral : ∀ e ∈ polls, eventDeps e = [] ∧ eventResolved e = [] := by
          intro e he
          obtain ⟨j, st, rfl⟩ := hpolls e he
          exact ⟨rfl, rfl⟩
        refine ⟨?_, rfl, rfl, rfl, rfl, rfl, rfl, rfl, rfl, rfl, rfl, rfl, ?_, ?_⟩
        · unfold firstNatId
          unfold findNats at hf ⊢
          rw [List.filter_append, hf]
          simp
        · rw [resolvedIds_append, resolvedIds_append, resolvedIds_of_neutral polls hpollsRes]
          simp [resolvedIds, eventResolved]
        · intro K hK
          rw [List.append_assoc]
          refine depsOkB_append _ ?_ ?_
          · simp [depsOkB, eventDeps, eventResolved, hK]
          · refine depsOkB_append_neutral polls hpollsNeutral _ _ ?_
            simp [depsOkB, eventDeps, eventResolved]

theorem rtById_append_some {l l' : List RouteTable} {rt : Nat} {t : RouteTable}
    (h : rtById l rt = some t) : rtById (l ++ l') rt = some t :=
  find?_append_some h

theorem rtHasRouteTo_append {l l' : List RouteTable} {rt : Nat} {d : String}
    (h : rtHasRouteTo l rt d = true) : rtHasRouteTo (l ++ l') rt d = true := by
  unfold rtHasRouteTo at h ⊢
  cases hx : rtById l rt with
  | none => rw [hx] at h; simp at h
  | some t =>
    rw [hx] at h
    rw [rtById_append_some hx]
    exact h

theorem rtHasAssoc_append {l l' : List RouteTable} {rt sn : Nat}
    (h : rtHasAssoc l rt sn = true) : rtHasAssoc (l ++ l') rt sn = true := by
  unfold rtHasAssoc at h ⊢
  cases hx : rtById l rt with
  | none => rw [hx] at h; simp at h
  | some t =>
    rw [hx] at h
    rw [rtById_append_some hx]
    exact h

theorem get_or_create_route_table_spec {v : Nat} {name : String} {s : AwsState}
    {i : Nat} {s' : AwsState} {tr : List Event}
    (h : get_or_create_route_table v name s = (i, s', tr)) :
    firstRtId s'.routeTables v name = some i
    ∧ (rtById s'.routeTables i).isSome = true
    ∧ (∀ (v' : Nat) (n' : String), n' ≠ name →
        firstRtId s'.routeTables v' n' = firstRtId s.routeTables v' n')
    ∧ (∀ (rt : Nat) (d : String), rtHasRouteTo s.routeTables rt d = true →
        rtHasRouteTo s'.routeTables rt d = true)
    ∧ (∀ (rt sn : Nat), rtHasAssoc s.routeTables rt sn = true →
        rtHasAssoc s'.routeTables rt sn = true)
    ∧ s'.awsKeyNames = s.awsKeyNames ∧ s'.vpcs = s.vpcs ∧ s'.subnets = s.subnets
    ∧ s'.igws = s.igws ∧ s'.nats = s.nats
    ∧ s'.securityGroups = s.securityGroups ∧ s'.instances = s.instances
    ∧ s'.albs = s.albs ∧ s'.targetGroups = s.targetGroups ∧ s'.listeners = s.listeners
    ∧ s'.registeredTargets = s.registeredTargets
    ∧ resolvedIds tr = [i]
    ∧ ∀ K : List Nat, v ∈ K → depsOkB K tr = true := by
  unfold get_or_create_route_table at h
  cases hf : findRouteTables s.routeTables v name with
  | cons t l =>
    rw [hf] at h
    simp only [Prod.mk.injEq] at h
    obtain ⟨rfl, rfl, rfl⟩ := h
    have htmem : t ∈ s.routeTables := by
      have : t ∈ findRouteTables s.routeTables v name := by
        rw [hf]
        exact List.mem_cons_self t l
      exact (List.mem_filter.mp this).1
    refine ⟨?_, ?_, ?_, ?_, ?_, rfl, rfl, rfl, rfl, rfl, rfl, rfl, rfl, rfl, rfl, rfl,
      ?_, ?_⟩
    · unfold firstRtId
      rw [hf]
      rfl
    · unfold rtById
      rw [List.find?_isSome]
      exact ⟨t, htmem, by simp⟩
    · intro v' n' _
      rfl
    · intro rt d hd
      exact hd
    · intro rt sn hd
      exact hd
    · simp [resolvedIds, eventResolved]
    · intro K _
      simp [depsOkB, eventDeps, eventResolved]
  | nil =>
    rw [hf] at h
    simp only [Prod.mk.injEq] at h
    obtain ⟨rfl, rfl, rfl⟩ := h
    refine ⟨?_, ?_, ?_, ?_, ?_, rfl, rfl, rfl, rfl, rfl, rfl, rfl, rfl, rfl, rfl, rfl,
      ?_, ?_⟩
    · unfold firstRtId
      unfold findRouteTables at hf ⊢
      rw [List.filter_append, hf]
      simp
    · unfold rtById
      rw [List.find?_isSome]
      refine ⟨⟨s.nextId, v, some name, [], []⟩, ?_, by simp⟩
      simp
    · intro v' n' hne
      unfold firstRtId
      unfold findRouteTables at hf ⊢
      rw [List.filter_append]
      have : (List.filter (fun t => decide (t.vpcId = v' ∧ t.nameTag = some n'))
          [(⟨s.nextId, v, some name, [], []⟩ : RouteTable)]) = [] := by
        simp [Ne.symm hne]
      rw [this, List.append_nil]
    · intro rt d hd
      exact rtHasRouteTo_append hd
    · intro rt sn hd
      exact rtHasAssoc_append hd
    · simp [resolvedIds, eventResolved]
    · intro K hK
      simp [depsOkB, eventDeps, eventResolved, hK]

theorem ensure_route_spec {rt : Nat} {dest : String} {g nt : Option Nat} {s : AwsState}
    {s' : AwsState} {tr : List Event} (h : ensure_route rt dest g nt s = (s', tr)) :
    ((rtById s.routeTables rt).isSome = true → rtHasRouteTo s'.routeTables rt dest = true)
    ∧ (∀ (rt' : Nat) (d' : String), rtHasRouteTo s.routeTables rt' d' = true →
        rtHasRouteTo s'.routeTables rt' d' = true)
    ∧ (∀ (rt' sn : Nat), rtHasAssoc s.routeTables rt' sn = true →
        rtHasAssoc s'.routeTables rt' sn = true)
    ∧ (∀ rt' : Nat, (rtById s.routeTables rt').isSome = true →
        (rtById s'.routeTables rt').isSome = true)
    ∧ (∀ (v' : Nat) (n' : String), firstRtId s'.routeTables v' n' = firstRtId s.routeTables v' n')
    ∧ s'.awsKeyNames = s.awsKeyNames ∧ s'.vpcs = s.vpcs ∧ s'.subnets = s.subnets
    ∧ s'.igws = s.igws ∧ s'.nats = s.nats
    ∧ s'.securityGroups = s.securityGroups ∧ s'.instances = s.instances
    ∧ s'.albs = s.albs ∧ s'.targetGroups = s.targetGroups ∧ s'.listeners = s.listeners
    ∧ s'.registeredTargets = s.registeredTargets
    ∧ resolvedIds tr = []
    ∧ ∀ K : List Nat, (∀ d ∈ rt :: (g.toList ++ nt.toList), d ∈ K) →
        depsOkB K tr = true := by
  unfold ensure_route at h
  cases hx : rtById s.routeTables rt with
  | none =>
    rw [hx] at h
    simp only [Prod.mk.injEq] at h
    obtain ⟨rfl, rfl⟩ := h
    refine ⟨?_, ?_, ?_, ?_, ?_, rfl, rfl, rfl, rfl, rfl, rfl, rfl, rfl, rfl, rfl, rfl,
      ?_, ?_⟩
    · intro h0
      simp at h0
    · intro rt' d' hd; exact hd
    · intro rt' sn hd; exact hd
    · intro rt' hd; exact hd
    · intro v' n'; rfl
    · simp [resolvedIds, eventResolved]
    · intro K _
      simp [depsOkB, eventDeps, eventResolved]
  | some t =>
    rw [hx] at h
    dsimp only at h
    by_cases hany : t.routes.any (fun r => decide (r.destinationCidrBlock = dest)) = true
    · rw [if_pos hany] at h
      simp only [Prod.mk.injEq] at h
      obtain ⟨rfl, rfl⟩ := h
      refine ⟨?_, ?_, ?_, ?_, ?_, rfl, rfl, rfl, rfl, rfl, rfl, rfl, rfl, rfl, rfl, rfl,
        ?_, ?_⟩
      · intro _
        unfold rtHasRouteTo
        rw [hx]
        exact hany
      · intro rt' d' hd; exact hd
      · intro rt' sn hd; exact hd
      · intro rt' hd; exact hd
      · intro v' n'; rfl
      · simp [resolvedIds, eventResolved]
      · intro K _
        simp [depsOkB, eventDeps, eventResolved]
    · rw [if_neg hany] at h
      simp only [Prod.mk.injEq] at h
      obtain ⟨rfl, rfl⟩ := h
      have hfid : ∀ t' : RouteTable,
          ((fun t' => if t'.routeTableId = rt then
            { t' with routes := t'.routes ++ [⟨dest, g, nt⟩] } else t') t').routeTableId
          = t'.routeTableId := by
        intro t'
        by_cases ht : t'.routeTableId = rt <;> simp [ht]
      refine ⟨?_, ?_, ?_, ?_, ?_, rfl, rfl, rfl, rfl, rfl, rfl, rfl, rfl, rfl, rfl, rfl,
        ?_, ?_⟩
      · intro _
        exact rtHasRouteTo_update s.routeTables rt ⟨dest, g, nt⟩ (by rw [hx]; rfl)
      · intro rt' d' hd
        refine rtHasRouteTo_map_mono s.routeTables rt' d' _ hfid ?_ hd
        intro t' r hr
        by_cases ht : t'.routeTableId = rt <;> simp [ht, hr]
      · intro rt' sn hd
        refine rtHasAssoc_map_mono s.routeTables rt' sn _ hfid ?_ hd
        intro t' a ha
        by_cases ht : t'.routeTableId = rt <;> simp [ht, ha]
      · intro rt' hd
        exact rtById_isSome_map s.routeTables rt' _ hfid hd
      · intro v' n'
        refine firstRtId_map s.routeTables v' n' _ hfid ?_ ?_
        · intro t'
          by_cases ht : t'.routeTableId = rt <;> simp [ht]
        · intro t'
          by_cases ht : t'.routeTableId = rt <;> simp [ht]
      · simp [resolvedIds, eventResolved]
      · intro K hK
        simp only [depsOkB, eventDeps, eventResolved, List.all_eq_true,
          decide_eq_true_eq, List.append_nil, List.all_nil, Bool.and_true, Bool.and_eq_true]
        exact ⟨trivial, fun d hd => hK d hd⟩

theorem associate_rt_spec {rt sn : Nat} {s : AwsState} {s' : AwsState} {tr : List Event}
    (h : associate_rt rt sn s = (s', tr)) :
    ((rtById s.routeTables rt).isSome = true → rtHasAssoc s'.routeTables rt sn = true)
    ∧ (∀ (rt' : Nat) (d' : String), rtHasRouteTo s.routeTables rt' d' = true →
        rtHasRouteTo s'.routeTables rt' d' = true)
    ∧ (∀ (rt' sn' : Nat), rtHasAssoc s.routeTables rt' sn' = true →
        rtHasAssoc s'.routeTables rt' sn' = true)
    ∧ (∀ rt' : Nat, (rtById s.routeTables rt').isSome = true →
        (rtById s'.routeTables rt').isSome = true)
    ∧ (∀ (v' : Nat) (n' : String), firstRtId s'.routeTables v' n' = firstRtId s.routeTables v' n')
    ∧ s'.awsKeyNames = s.awsKeyNames ∧ s'.vpcs = s.vpcs ∧ s'.subnets = s.subnets
    ∧ s'.igws = s.igws ∧ s'.nats = s.nats
    ∧ s'.securityGroups = s.securityGroups ∧ s'.instances = s.instances
    ∧ s'.albs = s.albs ∧ s'.targetGroups = s.targetGroups ∧ s'.listeners = s.listeners
    ∧ s'.registeredTargets = s.registeredTargets
    ∧ resolvedIds tr = []
    ∧ ∀ K : List Nat, rt ∈ K → sn ∈ K → depsOkB K tr = true := by
  unfold associate_rt at h
  cases hx : rtById s.routeTables rt with
  | none =>
    rw [hx] at h
    simp only [Prod.mk.injEq] at h
    obtain ⟨rfl, rfl⟩ := h
    refine ⟨?_, ?_, ?_, ?_, ?_, rfl, rfl, rfl, rfl, rfl, rfl, rfl, rfl, rfl, rfl, rfl,
      ?_, ?_⟩
    · intro h0
      simp at h0
    · intro rt' d' hd; exact hd
    · intro rt' sn' hd; exact hd
    · intro rt' hd; exact hd
    · intro v' n'; rfl
    · simp [resolvedIds, eventResolved]
    · intro K _ _
      simp [depsOkB, eventDeps, eventResolved]
  | some t =>
    rw [hx] at h
    dsimp only at h
    by_cases hc : t.associations.contains sn = true
    · rw [if_pos hc] at h
      simp only [Prod.mk.injEq] at h
      obtain ⟨rfl, rfl⟩ := h
      refine ⟨?_, ?_, ?_, ?_, ?_, rfl, rfl, rfl, rfl, rfl, rfl, rfl, rfl, rfl, rfl, rfl,
        ?_, ?_⟩
      · intro _
        unfold rtHasAssoc
        rw [hx]
        exact hc
      · intro rt' d' hd; exact hd
      · intro rt' sn' hd; exact hd
      · intro rt' hd; exact hd
      · intro v' n'; rfl
      · simp [resolvedIds, eventResolved]
      · intro K _ _
        simp [depsOkB, eventDeps, eventResolved]
    · rw [if_neg hc] at h
      simp only [Prod.mk.injEq] at h
      obtain ⟨rfl, rfl⟩ := h
      have hfid : ∀ t' : RouteTable,
          ((fun t' => if t'.routeTableId = rt then
            { t' with associations := t'.associations ++ [sn] } else t') t').routeTableId
          = t'.routeTableId := by
        intro t'
        by_cases ht : t'.routeTableId = rt <;> simp [ht]
      refine ⟨?_, ?_, ?_, ?_, ?_, rfl, rfl, rfl, rfl, rfl, rfl, rfl, rfl, rfl, rfl, rfl,
        ?_, ?_⟩
      · intro _
        exact rtHasAssoc_update s.routeTables rt sn (by rw [hx]; rfl)
      · intro rt' d' hd
        refine rtHasRouteTo_map_mono s.routeTables rt' d' _ hfid ?_ hd
        intro t' r hr
        by_cases ht : t'.routeTableId = rt <;> simp [ht, hr]
      · intro rt' sn' hd
        refine rtHasAssoc_map_mono s.routeTables rt' sn' _ hfid ?_ hd
        intro t' a ha
        by_cases ht : t'.routeTableId = rt <;> simp [ht, ha]
      · intro rt' hd
        exact rtById_isSome_map s.routeTables rt' _ hfid hd
      · intro v' n'
        refine firstRtId_map s.routeTables v' n' _ hfid ?_ ?_
        · intro t'
          by_cases ht : t'.routeTableId = rt <;> simp [ht]
        · intro t'
          by_cases ht : t'.routeTableId = rt <;> simp [ht]
      · simp [resolvedIds, eventResolved]
      · intro K hK1 hK2
        simp [depsOkB, eventDeps, eventResolved, hK1, hK2]

theorem mem_insertIfAbsent_self (y : Nat × Nat × Nat) (l : List (Nat × Nat × Nat)) :
    y ∈ insertIfAbsent y l := by
  unfold insertIfAbsent
  by_cases h : y ∈ l <;> simp [h]

theorem mem_insertIfAbsent_of_mem {x : Nat × Nat × Nat} (y : Nat × Nat × Nat)
    {l : List (Nat × Nat × Nat)} (h : x ∈ l) : x ∈ insertIfAbsent y l := by
  unfold insertIfAbsent
  by_cases hy : y ∈ l <;> simp [h, hy]

theorem insertIfAbsent_of_mem {y : Nat × Nat × Nat} {l : List (Nat × Nat × Nat)}
    (h : y ∈ l) : insertIfAbsent y l = l := by
  unfold insertIfAbsent
  simp [h]

theorem get_or_create_sg_spec {name desc : String} {v : Nat} {rules : List IpPermission}
    {s : AwsState} {i : Nat} {s' : AwsState} {tr : List Event}
    (h : get_or_create_sg name desc v rules s = (i, s', tr)) :
    firstSgId s'.securityGroups name v = some i
    ∧ (∀ (n' : String) (v' : Nat), n' ≠ name →
        firstSgId s'.securityGroups n' v' = firstSgId s.securityGroups n' v')
    ∧ s'.awsKeyNames = s.awsKeyNames ∧ s'.vpcs = s.vpcs ∧ s'.subnets = s.subnets
    ∧ s'.igws = s.igws ∧ s'.nats = s.nats ∧ s'.routeTables = s.routeTables
    ∧ s'.instances = s.instances
    ∧ s'.albs = s.albs ∧ s'.targetGroups = s.targetGroups ∧ s'.listeners = s.listeners
    ∧ s'.registeredTargets = s.registeredTargets
    ∧ resolvedIds tr = [i]
    ∧ ∀ K : List Nat, v ∈ K → depsOkB K tr = true := by
  unfold get_or_create_sg at h
  cases hf : findSgs s.securityGroups name v with
  | cons g l =>
    rw [hf] at h
    simp only [Prod.mk.injEq] at h
    obtain ⟨rfl, rfl, rfl⟩ := h
    refine ⟨?_, ?_, rfl, rfl, rfl, rfl, rfl, rfl, rfl, rfl, rfl, rfl, rfl, ?_, ?_⟩
    · unfold firstSgId
      rw [hf]
      rfl
    · intro n' v' _
      rfl
    · simp [resolvedIds, eventResolved]
    · intro K _
      simp [depsOkB, eventDeps, eventResolved]
  | nil =>
    rw [hf] at h
    simp only [Prod.mk.injEq] at h
    obtain ⟨rfl, rfl, rfl⟩ := h
    refine ⟨?_, ?_, rfl, rfl, rfl, rfl, rfl, rfl, rfl, rfl, rfl, rfl, rfl, ?_, ?_⟩
    · unfold firstSgId
      unfold findSgs at hf ⊢
      rw [List.filter_append, hf]
      simp
    · intro n' v' hne
      unfold firstSgId
      unfold findSgs at hf ⊢
      rw [List.filter_append]
      have : (List.filter (fun g => decide (g.groupName = n' ∧ g.vpcId = v'))
          [(⟨s.nextId, name, desc, v, rules⟩ : SecurityGroup)]) = [] := by
        simp [Ne.symm hne]
      rw [this, List.append_nil]
    · simp [resolvedIds, eventResolved]
    · intro K hK
      simp [depsOkB, eventDeps, eventResolved, hK]

theorem launch_instance_spec {name : String} {subnetId sgId : Nat} {ud : String}
    {s : AwsState} {i : Nat} {s' : AwsState} {tr : List Event}
    (h : launch_instance name subnetId sgId ud s = (i, s', tr)) :
    firstInstanceId s'.instances name = some i
    ∧ (∀ n' : String, n' ≠ name →
        firstInstanceId s'.instances n' = firstInstanceId s.instances n')
    ∧ s'.awsKeyNames = s.awsKeyNames ∧ s'.vpcs = s.vpcs ∧ s'.subnets = s.subnets
    ∧ s'.igws = s.igws ∧ s'.nats = s.nats ∧ s'.routeTables = s.routeTables
    ∧ s'.securityGroups = s.securityGroups
    ∧ s'.albs = s.albs ∧ s'.targetGroups = s.targetGroups ∧ s'.listeners = s.listeners
    ∧ s'.registeredTargets = s.registeredTargets
    ∧ resolvedIds tr = [i]
    ∧ ∀ K : List Nat, subnetId ∈ K → sgId ∈ K → depsOkB K tr = true := by
  unfold launch_instance at h
  cases hf : findInstancesByName s.instances name with
  | cons x l =>
    rw [hf] at h
    simp only [Prod.mk.injEq] at h
    obtain ⟨rfl, rfl, rfl⟩ := h
    refine ⟨?_, ?_, rfl, rfl, rfl, rfl, rfl, rfl, rfl, rfl, rfl, rfl, rfl, ?_, ?_⟩
    · unfold firstInstanceId
      rw [hf]
      rfl
    · intro n' _
      rfl
    · simp [resolvedIds, eventResolved]
    · intro K _ _
      simp [depsOkB, eventDeps, eventResolved]
  | nil =>
    rw [hf] at h
    simp only [Prod.mk.injEq] at h
    obtain ⟨rfl, rfl, rfl⟩ := h
    refine ⟨?_, ?_, rfl, rfl, rfl, rfl, rfl, rfl, rfl, rfl, rfl, rfl, rfl, ?_, ?_⟩
    · unfold firstInstanceId
      unfold findInstancesByName at hf ⊢
      rw [List.filter_append, hf]
      simp
    · intro n' hne
      unfold firstInstanceId
      unfold findInstancesByName at hf ⊢
      rw [List.filter_append]
      have : (List.filter (fun x => decide (x.nameTag = some n'))
          [(⟨s.nextId, some name, AMI_ID, INSTANCE_TYPE, KEY_NAME, subnetId, [sgId],
            ud, "pending"⟩ : Ec2Instance)]) = [] := by
        simp [Ne.symm hne]
      rw [this, List.append_nil]
    · simp [resolvedIds, eventResolved]
    · intro K hK1 hK2
      simp [depsOkB, eventDeps, eventResolved, hK1, hK2]

theorem get_or_create_alb_spec {name : String} {subnets : List Nat} {sgId : Nat}
    {s : AwsState} {i : Nat} {s' : AwsState} {tr : List Event}
    (h : get_or_create_alb name subnets sgId s = (i, s', tr)) :
    firstAlbArn s'.albs name = some i
    ∧ s'.awsKeyNames = s.awsKeyNames ∧ s'.vpcs = s.vpcs ∧ s'.subnets = s.subnets
    ∧ s'.igws = s.igws ∧ s'.nats = s.nats ∧ s'.routeTables = s.routeTables
    ∧ s'.securityGroups = s.securityGroups ∧ s'.instances = s.instances
    ∧ s'.targetGroups = s.targetGroups ∧ s'.listeners = s.listeners
    ∧ s'.registeredTargets = s.registeredTargets
    ∧ resolvedIds tr = [i]
    ∧ ∀ K : List Nat, (∀ d ∈ subnets, d ∈ K) → sgId ∈ K → depsOkB K tr = true := by
  unfold get_or_create_alb at h
  cases hf : findAlbs s.albs name with
  | cons a l =>
    rw [hf] at h
    simp only [Prod.mk.injEq] at h
    obtain ⟨rfl, rfl, rfl⟩ := h
    refine ⟨?_, rfl, rfl, rfl, rfl, rfl, rfl, rfl, rfl, rfl, rfl, rfl, ?_, ?_⟩
    · unfold firstAlbArn
      rw [hf]
      rfl
    · simp [resolvedIds, eventResolved]
    · intro K _ _
      simp [depsOkB, eventDeps, eventResolved]
  | nil =>
    rw [hf] at h
    simp only [Prod.mk.injEq] at h
    obtain ⟨rfl, rfl, rfl⟩ := h
    refine ⟨?_, rfl, rfl, rfl, rfl, rfl, rfl, rfl, rfl, rfl, rfl, rfl, ?_, ?_⟩
    · unfold firstAlbArn
      unfold findAlbs at hf ⊢
      rw [List.filter_append, hf]
      simp
    · simp [resolvedIds, eventResolved]
    · intro K hK1 hK2
      have hall : ∀ d ∈ subnets ++ [sgId], d ∈ K := by
        intro d hd
        rcases List.mem_append.mp hd with hd | hd
        · exact hK1 d hd
        · rw [List.mem_singleton] at hd
          subst hd
          exact hK2
      simp only [depsOkB, eventDeps, eventResolved, List.all_eq_true, decide_eq_true_eq,
        List.append_nil, List.all_nil, Bool.and_true, Bool.and_eq_true]
      exact ⟨trivial, hall⟩

theorem get_or_create_target_group_spec {name : String} {v : Nat}
    {s : AwsState} {i : Nat} {s' : AwsState} {tr : List Event}
    (h : get_or_create_target_group name v s = (i, s', tr)) :
    firstTgArn s'.targetGroups name = some i
    ∧ (tgByArn s'.targetGroups i).isSome = true
    ∧ s'.awsKeyNames = s.awsKeyNames ∧ s'.vpcs = s.vpcs ∧ s'.subnets = s.subnets
    ∧ s'.igws = s.igws ∧ s'.nats = s.nats ∧ s'.routeTables = s.routeTables
    ∧ s'.securityGroups = s.securityGroups ∧ s'.instances = s.instances
    ∧ s'.albs = s.albs ∧ s'.listeners = s.listeners
    ∧ s'.registeredTargets = s.registeredTargets
    ∧ resolvedIds tr = [i]
    ∧ ∀ K : List Nat, v ∈ K → depsOkB K tr = true := by
  unfold get_or_create_target_group at h
  cases hf : findTgs s.targetGroups name with
  | cons t l =>
    rw [hf] at h
    simp only [Prod.mk.injEq] at h
    obtain ⟨rfl, rfl, rfl⟩ := h
    have htmem : t ∈ s.targetGroups := by
      have : t ∈ findTgs s.targetGroups name := by
        rw [hf]
        exact List.mem_cons_self t l
      exact (List.mem_filter.mp this).1
    refine ⟨?_, ?_, rfl, rfl, rfl, rfl, rfl, rfl, rfl, rfl, rfl, rfl, rfl, ?_, ?_⟩
    · unfold firstTgArn
      rw [hf]
      rfl
    · unfold tgByArn
      rw [List.find?_isSome]
      exact ⟨t, htmem, by simp⟩
    · simp [resolvedIds, eventResolved]
    · intro K _
      simp [depsOkB, eventDeps, eventResolved]
  | nil =>
    rw [hf] at h
    simp only [Prod.mk.injEq] at h
    obtain ⟨rfl, rfl, rfl⟩ := h
    refine ⟨?_, ?_, rfl, rfl, rfl, rfl, rfl, rfl, rfl, rfl, rfl, rfl, rfl, ?_, ?_⟩
    · unfold firstTgArn
      unfold findTgs at hf ⊢
      rw [List.filter_append, hf]
      simp
    · unfold tgByArn
      rw [List.find?_isSome]
      refine ⟨⟨s.nextId, name, "HTTP", 80, v, "/", 30, 5, 5, 2⟩, ?_, by simp⟩
      simp
    · simp [resolvedIds, eventResolved]
    · intro K hK
      simp [depsOkB, eventDeps, eventResolved, hK]

theorem register_targets_spec {tg a b pa pb : Nat} {s : AwsState} {s' : AwsState}
    {tr : List Event} (h : register_targets tg [(a, pa), (b, pb)] s = (s', tr)) :
    (tg, a, pa) ∈ s'.registeredTargets ∧ (tg, b, pb) ∈ s'.registeredTargets
    ∧ s'.awsKeyNames = s.awsKeyNames ∧ s'.vpcs = s.vpcs ∧ s'.subnets = s.subnets
    ∧ s'.igws = s.igws ∧ s'.nats = s.nats ∧ s'.routeTables = s.routeTables
    ∧ s'.securityGroups = s.securityGroups ∧ s'.instances = s.instances
    ∧ s'.albs = s.albs ∧ s'.targetGroups = s.targetGroups ∧ s'.listeners = s.listeners
    ∧ resolvedIds tr = []
    ∧ ∀ K : List Nat, tg ∈ K → a ∈ K → b ∈ K → depsOkB K tr = true := by
  unfold register_targets at h
  simp only [List.foldl, Prod.mk.injEq] at h
  obtain ⟨rfl, rfl⟩ := h
  refine ⟨?_, ?_, rfl, rfl, rfl, rfl, rfl, rfl, rfl, rfl, rfl, rfl, rfl, ?_, ?_⟩
  · exact mem_insertIfAbsent_of_mem (tg, b, pb)
      (mem_insertIfAbsent_self (tg, a, pa) s.registeredTargets)
  · exact mem_insertIfAbsent_self (tg, b, pb)
      (insertIfAbsent (tg, a, pa) s.registeredTargets)
  · simp [resolvedIds, eventResolved]
  · intro K hK1 hK2 hK3
    simp [depsOkB, eventDeps, eventResolved, hK1, hK2, hK3]

theorem setup_alb_listener_spec {albArn tgArn : Nat} {s : AwsState} {i : Nat}
    {s' : AwsState} {tr : List Event}
    (h : setup_alb_listener albArn tgArn s = (i, s', tr)) :
    firstListenerArn s'.listeners albArn = some i
    ∧ s'.awsKeyNames = s.awsKeyNames ∧ s'.vpcs = s.vpcs ∧ s'.subnets = s.subnets
    ∧ s'.igws = s.igws ∧ s'.nats = s.nats ∧ s'.routeTables = s.routeTables
    ∧ s'.securityGroups = s.securityGroups ∧ s'.instances = s.instances
    ∧ s'.albs = s.albs ∧ s'.targetGroups = s.targetGroups
    ∧ s'.registeredTargets = s.registeredTargets
    ∧ resolvedIds tr = [i]
    ∧ ∀ K : List Nat, albArn ∈ K → tgArn ∈ K → depsOkB K tr = true := by
  unfold setup_alb_listener at h
  cases hf : findListeners s.listeners albArn with
  | cons x l =>
    rw [hf] at h
    simp only [Prod.mk.injEq] at h
    obtain ⟨rfl, rfl, rfl⟩ := h
    refine ⟨?_, rfl, rfl, rfl, rfl, rfl, rfl, rfl, rfl, rfl, rfl, rfl, ?_, ?_⟩
    · unfold firstListenerArn
      rw [hf]
      rfl
    · simp [resolvedIds, eventResolved]
    · intro K _ _
      simp [depsOkB, eventDeps, eventResolved]
  | nil =>
    rw [hf] at h
    simp only [Prod.mk.injEq] at h
    obtain ⟨rfl, rfl, rfl⟩ := h
    refine ⟨?_, rfl, rfl, rfl, rfl, rfl, rfl, rfl, rfl, rfl, rfl, rfl, ?_, ?_⟩
    · unfold firstListenerArn
      unfold findListeners at hf ⊢
      rw [List.filter_append, hf]
      simp
    · simp [resolvedIds, eventResolved]
    · intro K hK1 hK2
      simp [depsOkB, eventDeps, eventResolved, hK1, hK2]

theorem setup_target_group_health_check_spec {tgArn : Nat} {path : String}
    {s : AwsState} {s' : AwsState} {tr : List Event}
    (h : setup_target_group_health_check tgArn path s = (s', tr)) :
    ((tgByArn s.targetGroups tgArn).isSome = true →
      tgHealthPath s'.targetGroups tgArn = some path)
    ∧ (∀ n : String, firstTgArn s'.targetGroups n = firstTgArn s.targetGroups n)
    ∧ s'.awsKeyNames = s.awsKeyNames ∧ s'.vpcs = s.vpcs ∧ s'.subnets = s.subnets
    ∧ s'.igws = s.igws ∧ s'.nats = s.nats ∧ s'.routeTables = s.routeTables
    ∧ s'.securityGroups = s.securityGroups ∧ s'.instances = s.instances
    ∧ s'.albs = s.albs ∧ s'.listeners = s.listeners
    ∧ s'.registeredTargets = s.registeredTargets
    ∧ resolvedIds tr = []
    ∧ ∀ K : List Nat, tgArn ∈ K → depsOkB K tr = true := by
  unfold setup_target_group_health_check at h
  cases hx : tgByArn s.targetGroups tgArn with
  | none =>
    rw [hx] at h
    simp only [Prod.mk.injEq] at h
    obtain ⟨rfl, rfl⟩ := h
    refine ⟨?_, ?_, rfl, rfl, rfl, rfl, rfl, rfl, rfl, rfl, rfl, rfl, rfl, ?_, ?_⟩
    · intro h0
      simp at h0
    · intro n
      rfl
    · simp [resolvedIds, eventResolved]
    · intro K _
      simp [depsOkB, eventDeps, eventResolved]
  | some t =>
    rw [hx] at h
    dsimp only at h
    by_cases hp : t.healthCheckPath = path
    · rw [if_pos hp] at h
      simp only [Prod.mk.injEq] at h
      obtain ⟨rfl, rfl⟩ := h
      refine ⟨?_, ?_, rfl, rfl, rfl, rfl, rfl, rfl, rfl, rfl, rfl, rfl, rfl, ?_, ?_⟩
      · intro _
        unfold tgHealthPath
        rw [hx]
        simp [hp]
      · intro n
        rfl
      · simp [resolvedIds, eventResolved]
      · intro K _
        simp [depsOkB, eventDeps, eventResolved]
    · rw [if_neg hp] at h
      simp only [Prod.mk.injEq] at h
      obtain ⟨rfl, rfl⟩ := h
      refine ⟨?_, ?_, rfl, rfl, rfl, rfl, rfl, rfl, rfl, rfl, rfl, rfl, rfl, ?_, ?_⟩
      · intro _
        exact tgHealthPath_update s.targetGroups tgArn path (by rw [hx]; rfl)
      · intro n
        refine firstTgArn_map s.targetGroups n _ ?_ ?_
        · intro t'
          by_cases ht : t'.targetGroupArn = tgArn <;> simp [ht]
        · intro t'
          by_cases ht : t'.targetGroupArn = tgArn <;> simp [ht]
      · simp [resolvedIds, eventResolved]
      · intro K hK
        simp [depsOkB, eventDeps, eventResolved, hK]

/-! ### Short-circuit lemmas: behavior of each step when the lookup hits -/

theorem rtHasRouteTo_iff {l : List RouteTable} {rt : Nat} {d : String} :
    rtHasRouteTo l rt d = true ↔ ∃ t, rtById l rt = some t
      ∧ t.routes.any (fun r => decide (r.destinationCidrBlock = d)) = true := by
  unfold rtHasRouteTo
  cases hx : rtById l rt with
  | none => simp
  | some t => simp

theorem rtHasAssoc_iff {l : List RouteTable} {rt sn : Nat} :
    rtHasAssoc l rt sn = true ↔ ∃ t, rtById l rt = some t
      ∧ t.associations.contains sn = true := by
  unfold rtHasAssoc
  cases hx : rtById l rt with
  | none => simp
  | some t => simp

theorem get_or_create_keypair_found {s : AwsState} (h : KEY_NAME ∈ s.awsKeyNames)
    (e : String × String) (m : String) :
    get_or_create_keypair e m s = .ok (s, [.find "key-pair"]) := by
  unfold get_or_create_keypair
  rw [if_pos h]

theorem get_or_create_vpc_found {s : AwsState} {i : Nat}
    (h : firstVpcId s.vpcs = some i) :
    get_or_create_vpc s = (i, s, [.find "vpc", .resolved "vpc" i]) := by
  unfold firstVpcId at h
  cases hf : findVpcs s.vpcs with
  | nil => rw [hf] at h; simp at h
  | cons v l =>
    rw [hf] at h
    simp only [List.head?_cons, Option.map_some', Option.some.injEq] at h
    unfold get_or_create_vpc
    rw [hf]
    simp [h]

theorem get_or_create_subnet_found {s : AwsState} {v : Nat} {c : String} {i : Nat}
    (h : firstSubnetId s.subnets v c = some i) (n : String) (p : Bool) (a : String) :
    get_or_create_subnet v c n p a s = (i, s, [.find "subnet", .resolved "subnet" i]) := by
  unfold firstSubnetId at h
  cases hf : findSubnets s.subnets v c with
  | nil => rw [hf] at h; simp at h
  | cons sn l =>
    rw [hf] at h
    simp only [List.head?_cons, Option.map_some', Option.some.injEq] at h
    unfold get_or_create_subnet
    rw [hf]
    simp [h]

theorem get_or_create_igw_found {s : AwsState} {v i : Nat}
    (h : firstIgwId s.igws v = some i) :
    get_or_create_igw v s = (i, s,
      [.find "internet-gateway", .resolved "internet-gateway" i]) := by
  unfold firstIgwId at h
  cases hf : findIgws s.igws v with
  | nil => rw [hf] at h; simp at h
  | cons g l =>
    rw [hf] at h
    simp only [List.head?_cons, Option.map_some', Option.some.injEq] at h
    unfold get_or_create_igw
    rw [hf]
    simp [h]

theorem get_or_create_nat_found {s : AwsState} {ps i : Nat}
    (h : firstNatId s.nats ps = some i) (o : Nat → String) (fuel : Nat) :
    get_or_create_nat o fuel ps s = some (i, s,
      [.find "nat-gateway", .resolved "nat-gateway" i]) := by
  unfold firstNatId at h
  cases hf : findNats s.nats ps with
  | nil => rw [hf] at h; simp at h
  | cons nn l =>
    rw [hf] at h
    simp only [List.head?_cons, Option.map_some', Option.some.injEq] at h
    unfold get_or_create_nat
    rw [hf]
    simp [h]

theorem get_or_create_route_table_found {s : AwsState} {v i : Nat} {name : String}
    (h : firstRtId s.routeTables v name = some i) :
    get_or_create_route_table v name s = (i, s,
      [.find "route-table", .resolved "route-table" i]) := by
  unfold firstRtId at h
  cases hf : findRouteTables s.routeTables v name with
  | nil => rw [hf] at h; simp at h
  | cons t l =>
    rw [hf] at h
    simp only [List.head?_cons, Option.map_some', Option.some.injEq] at h
    unfold get_or_create_route_table
    rw [hf]
    simp [h]

theorem ensure_route_skip {s : AwsState} {rt : Nat} {dest : String}
    (h : rtHasRouteTo s.routeTables rt dest = true) (g nt : Option Nat) :
    ensure_route rt dest g nt s = (s, [.find "route-table"]) := by
  obtain ⟨t, hx, hany⟩ := rtHasRouteTo_iff.mp h
  unfold ensure_route
  rw [hx]
  simp [hany]

theorem associate_rt_skip {s : AwsState} {rt sn : Nat}
    (h : rtHasAssoc s.routeTables rt sn = true) :
    associate_rt rt sn s = (s, [.find "route-table"]) := by
  obtain ⟨t, hx, hc⟩ := rtHasAssoc_iff.mp h
  unfold associate_rt
  rw [hx]
  dsimp only
  rw [if_pos hc]

theorem get_or_create_sg_found {s : AwsState} {v i : Nat} {name : String}
    (h : firstSgId s.securityGroups name v = some i) (desc : String)
    (rules : List IpPermission) :
    get_or_create_sg name desc v rules s = (i, s,
      [.find "security-group", .resolved "security-group" i]) := by
  unfold firstSgId at h
  cases hf : findSgs s.securityGroups name v with
  | nil => rw [hf] at h; simp at h
  | cons g l =>
    rw [hf] at h
    simp only [List.head?_cons, Option.map_some', Option.some.injEq] at h
    unfold get_or_create_sg
    rw [hf]
    simp [h]

theorem launch_instance_found {s : AwsState} {i : Nat} {name : String}
    (h : firstInstanceId s.instances name = some i) (subnetId sgId : Nat) (ud : String) :
    launch_instance name subnetId sgId ud s = (i, s,
      [.find "instance", .resolved "instance" i]) := by
  unfold firstInstanceId at h
  cases hf : findInstancesByName s.instances name with
  | nil => rw [hf] at h; simp at h
  | cons x l =>
    rw [hf] at h
    simp only [List.head?_cons, Option.map_some', Option.some.injEq] at h
    unfold launch_instance
    rw [hf]
    simp [h]

theorem get_or_create_alb_found {s : AwsState} {i : Nat} {name : String}
    (h : firstAlbArn s.albs name = some i) (subnets : List Nat) (sgId : Nat) :
    get_or_create_alb name subnets sgId s = (i, s,
      [.find "load-balancer", .resolved "load-balancer" i]) := by
  unfold firstAlbArn at h
  cases hf : findAlbs s.albs name with
  | nil => rw [hf] at h; simp at h
  | cons a l =>
    rw [hf] at h
    simp only [List.head?_cons, Option.map_some', Option.some.injEq] at h
    unfold get_or_create_alb
    rw [hf]
    simp [h]

theorem get_or_create_target_group_found {s : AwsState} {i v : Nat} {name : String}
    (h : firstTgArn s.targetGroups name = some i) :
    get_or_create_target_group name v s = (i, s,
      [.find "target-group", .resolved "target-group" i]) := by
  unfold firstTgArn at h
  cases hf : findTgs s.targetGroups name with
  | nil => rw [hf] at h; simp at h
  | cons t l =>
    rw [hf] at h
    simp only [List.head?_cons, Option.map_some', Option.some.injEq] at h
    unfold get_or_create_target_group
    rw [hf]
    simp [h]

theorem register_targets_noop {s : AwsState} {tg a b : Nat}
    (h1 : (tg, a, 80) ∈ s.registeredTargets) (h2 : (tg, b, 80) ∈ s.registeredTargets) :
    register_targets tg [(a, 80), (b, 80)] s = (s, [.registerCall tg [a, b]]) := by
  unfold register_targets
  simp only [List.foldl, List.map]
  rw [insertIfAbsent_of_mem h1, insertIfAbsent_of_mem h2]

theorem setup_alb_listener_found {s : AwsState} {albArn i : Nat}
    (h : firstListenerArn s.listeners albArn = some i) (tgArn : Nat) :
    setup_alb_listener albArn tgArn s = (i, s,
      [.find "listener", .resolved "listener" i]) := by
  unfold firstListenerArn at h
  cases hf : findListeners s.listeners albArn with
  | nil => rw [hf] at h; simp at h
  | cons x l =>
    rw [hf] at h
    simp only [List.head?_cons, Option.map_some', Option.some.injEq] at h
    unfold setup_alb_listener
    rw [hf]
    simp [h]

theorem setup_target_group_health_check_skip {s : AwsState} {tgArn : Nat} {path : String}
    (h : tgHealthPath s.targetGroups tgArn = some path) :
    setup_target_group_health_check tgArn path s = (s, [.find "target-group"]) := by
  unfold tgHealthPath at h
  cases hx : tgByArn s.targetGroups tgArn with
  | none => rw [hx] at h; simp at h
  | some t =>
    rw [hx] at h
    simp only [Option.map_some', Option.some.injEq] at h
    unfold setup_target_group_health_check
    rw [hx]
    simp [h]

set_option maxHeartbeats 1600000 in
/-- Running the whole flow from a converged state: every step takes its
find-positive path, the state is returned unchanged, the resolved ids
are the ones the lookups report, and the trace carries no create and no
modify call. -/
theorem runScript_of_converged {ids : RunIds} {s : AwsState} (h : Converged ids s)
    (o : Nat → String) (fuel : Nat) (ke : String × String) (km : String) :
    runScript o fuel ke km s = some (ids, s, convergedTrace ids) := by
  unfold runScript
  simp only [get_or_create_keypair_found h.kp, get_or_create_vpc_found h.vpc,
    get_or_create_subnet_found h.ps1, get_or_create_subnet_found h.ps2,
    get_or_create_subnet_found h.prs1, get_or_create_subnet_found h.prs2,
    get_or_create_igw_found h.igw, get_or_create_nat_found h.nat,
    get_or_create_route_table_found h.pubRt, get_or_create_route_table_found h.privRt,
    ensure_route_skip h.pubRoute, ensure_route_skip h.privRoute,
    associate_rt_skip h.pubAssoc1, associate_rt_skip h.pubAssoc2,
    associate_rt_skip h.privAssoc1, associate_rt_skip h.privAssoc2,
    get_or_create_sg_found h.pubSg, get_or_create_sg_found h.privSg,
    launch_instance_found h.inst1, launch_instance_found h.inst2,
    launch_instance_found h.instPub, get_or_create_alb_found h.alb,
    get_or_create_target_group_found h.tg, register_targets_noop h.reg1 h.reg2,
    setup_alb_listener_found h.lst, setup_target_group_health_check_skip h.health,
    convergedTrace, List.cons_append, List.nil_append]

theorem countCreates_convergedTrace (ids : RunIds) :
    countCreates (convergedTrace ids) = 0 := rfl

theorem countModifies_convergedTrace (ids : RunIds) :
    countModifies (convergedTrace ids) = 0 := rfl

theorem depsOkB_append_sub (t1 : List Event) {K : List Nat} {t2 : List Event}
    (Knext : List Nat) (h1 : depsOkB K t1 = true)
    (hsub : ∀ d, d ∈ Knext → d ∈ K ++ resolvedIds t1)
    (h2 : depsOkB Knext t2 = true) : depsOkB K (t1 ++ t2) = true :=
  depsOkB_append t1 h1 (depsOkB_mono t2 Knext _ hsub h2)

set_option maxHeartbeats 3200000 in
/-- What a successful run establishes: the final state is converged on the
returned ids, and every call of the trace referenced only provider ids
resolved earlier in the trace. -/
theorem runScript_spec {o : Nat → String} {fuel : Nat} {ke : String × String}
    {km : String} {s0 : AwsState} {r : RunIds × AwsState × List Event}
    (h : runScript o fuel ke km s0 = some r) :
    Converged r.1 r.2.1 ∧ depsOkB [] r.2.2 = true := by
  unfold runScript at h
  cases hkp : get_or_create_keypair ke km s0 with
  | error e =>
    rw [hkp] at h
    simp at h
  | ok p =>
    obtain ⟨s1, t1⟩ := p
    rw [hkp] at h
    dsimp only at h
    rcases h2 : get_or_create_vpc s1 with ⟨vz, s2, t2⟩
    rw [h2] at h
    dsimp only at h
    rcases h3 : get_or_create_subnet vz "10.0.1.0/24" "public-subnet-1" true "us-east-1a" s2
      with ⟨ps1z, s3, t3⟩
    rw [h3] at h
    dsimp only at h
    rcases h4 : get_or_create_subnet vz "10.0.4.0/24" "public-subnet-2" true "us-east-1b" s3
      with ⟨ps2z, s4, t4⟩
    rw [h4] at h
    dsimp only at h
    rcases h5 : get_or_create_subnet vz "10.0.2.0/24" "private-subnet-1" false "us-east-1a" s4
      with ⟨prs1z, s5, t5⟩
    rw [h5] at h
    dsimp only at h
    rcases h6 : get_or_create_subnet vz "10.0.3.0/24" "private-subnet-2" false "us-east-1b" s5
      with ⟨prs2z, s6, t6⟩
    rw [h6] at h
    dsimp only at h
    rcases h7 : get_or_create_igw vz s6 with ⟨igwz, s7, t7⟩
    rw [h7] at h
    dsimp only at h
    cases h8 : get_or_create_nat o fuel ps1z s7 with
    | none =>
      rw [h8] at h
      simp at h
    | some p8 =>
      obtain ⟨natz, s8, t8⟩ := p8
      rw [h8] at h
      dsimp only at h
      rcases h9 : get_or_create_route_table vz "public-rt" s8 with ⟨prtz, s9, t9⟩
      rw [h9] at h
      dsimp only at h
      rcases h10 : ensure_route prtz "0.0.0.0/0" (some igwz) none s9 with ⟨s10, t10⟩
      rw [h10] at h
      dsimp only at h
      rcases h11 : associate_rt prtz ps1z s10 with ⟨s11, t11⟩
      rw [h11] at h
      dsimp only at h
      rcases h12 : associate_rt prtz ps2z s11 with ⟨s12, t12⟩
      rw [h12] at h
      dsimp only at h
      rcases h13 : get_or_create_route_table vz "private-rt" s12 with ⟨vrtz, s13, t13⟩
      rw [h13] at h
      dsimp only at h
      rcases h14 : ensure_route vrtz "0.0.0.0/0" none (some natz) s13 with ⟨s14, t14⟩
      rw [h14] at h
      dsimp only at h
      rcases h15 : associate_rt vrtz prs1z s14 with ⟨s15, t15⟩
      rw [h15] at h
      dsimp only at h
      rcases h16 : associate_rt vrtz prs2z s15 with ⟨s16, t16⟩
      rw [h16] at h
      dsimp only at h
      rcases h17 : get_or_create_sg "public-sg" "Public SG" vz publicSgRules s16
        with ⟨psgz, s17, t17⟩
      rw [h17] at h
      dsimp only at h
      rcases h18 : get_or_create_sg "private-sg" "Private SG" vz privateSgRules s17
        with ⟨vsgz, s18, t18⟩
      rw [h18] at h
      dsimp only at h
      rcases h19 : launch_instance "private-ec2-1" prs1z vsgz userData1 s18
        with ⟨i1z, s19, t19⟩
      rw [h19] at h
      dsimp only at h
      rcases h20 : launch_instance "private-ec2-2" prs2z vsgz userData2 s19
        with ⟨i2z, s20, t20⟩
      rw [h20] at h
      dsimp only at h
      rcases h21 : launch_instance "public-ec2-1" ps1z psgz "" s20 with ⟨ipz, s21, t21⟩
      rw [h21] at h
      dsimp only at h
      rcases h22 : get_or_create_alb "salman-alb" [ps1z, ps2z] psgz s21 with ⟨albz, s22, t22⟩
      rw [h22] at h
      dsimp only at h
      rcases h23 : get_or_create_target_group "salman-TG" vz s22 with ⟨tgz, s23, t23⟩
      rw [h23] at h
      dsimp only at h
      rcases h24 : register_targets tgz [(i1z, 80), (i2z, 80)] s23 with ⟨s24, t24⟩
      rw [h24] at h
      dsimp only at h
      rcases h25 : setup_alb_listener albz tgz s24 with ⟨lsz, s25, t25⟩
      rw [h25] at h
      dsimp only at h
      rcases h26 : setup_target_group_health_check tgz "/index.html" s25 with ⟨s26, t26⟩
      rw [h26] at h
      dsimp only at h
      simp only [Option.some.injEq] at h
      subst h
      obtain ⟨kp1, V1, S1, G1, N1, R1, C1, I1, B1, T1, L1, D1, res1, dep1⟩ :=
        get_or_create_keypair_spec hkp
      obtain ⟨est2, A2, S2, G2, N2, R2, C2, I2, B2, T2, L2, D2, res2, dep2⟩ :=
        get_or_create_vpc_spec h2
      obtain ⟨est3, pre3, A3, V3, G3, N3, R3, C3, I3, B3, T3, L3, D3, res3, dep3⟩ :=
        get_or_create_subnet_spec h3
      obtain ⟨est4, pre4, A4, V4, G4, N4, R4, C4, I4, B4, T4, L4, D4, res4, dep4⟩ :=
        get_or_create_subnet_spec h4
      obtain ⟨est5, pre5, A5, V5, G5, N5, R5, C5, I5, B5, T5, L5, D5, res5, dep5⟩ :=
        get_or_create_subnet_spec h5
      obtain ⟨est6, pre6, A6, V6, G6, N6, R6, C6, I6, B6, T6, L6, D6, res6, dep6⟩ :=
        get_or_create_subnet_spec h6
      obtain ⟨est7, A7, V7, S7, N7, R7, C7, I7, B7, T7, L7, D7, res7, dep7⟩ :=
        get_or_create_igw_spec h7
      obtain ⟨est8, A8, V8, S8, G8, R8, C8, I8, B8, T8, L8, D8, res8, dep8⟩ :=
        get_or_create_nat_spec h8
      obtain ⟨est9, some9, pre9, proute9, passoc9, A9, V9, S9, G9, N9, C9, I9, B9, T9,
        L9, D9, res9, dep9⟩ := get_or_create_route_table_spec h9
      obtain ⟨est10, proute10, passoc10, psome10, pfirst10, A10, V10, S10, G10, N10, C10,
        I10, B10, T10, L10, D10, res10, dep10⟩ := ensure_route_spec h10
      obtain ⟨est11, proute11, passoc11, psome11, pfirst11, A11, V11, S11, G11, N11, C11,
        I11, B11, T11, L11, D11, res11, dep11⟩ := associate_rt_spec h11
      obtain ⟨est12, proute12, passoc12, psome12, pfirst12, A12, V12, S12, G12, N12, C12,
        I12, B12, T12, L12, D12, res12, dep12⟩ := associate_rt_spec h12
      obtain ⟨est13, some13, pre13, proute13, passoc13, A13, V13, S13, G13, N13, C13,
        I13, B13, T13, L13, D13, res13, dep13⟩ := get_or_create_route_table_spec h13
      obtain ⟨est14, proute14, passoc14, psome14, pfirst14, A14, V14, S14, G14, N14, C14,
        I14, B14, T14, L14, D14, res14, dep14⟩ := ensure_route_spec h14
      obtain ⟨est15, proute15, passoc15, psome15, pfirst15, A15, V15, S15, G15, N15, C15,
        I15, B15, T15, L15, D15, res15, dep15⟩ := associate_rt_spec h15
      obtain ⟨est16, proute16, passoc16, psome16, pfirst16, A16, V16, S16, G16, N16, C16,
        I16, B16, T16, L16, D16, res16, dep16⟩ := associate_rt_spec h16
      obtain ⟨est17, pre17, A17, V17, S17, G17, N17, R17, I17, B17, T17, L17, D17,
        res17, dep17⟩ := get_or_create_sg_spec h17
      obtain ⟨est18, pre18, A18, V18, S18, G18, N18, R18, I18, B18, T18, L18, D18,
        res18, dep18⟩ := get_or_create_sg_spec h18
      obtain ⟨est19, pre19, A19, V19, S19, G19, N19, R19, C19, B19, T19, L19, D19,
        res19, dep19⟩ := launch_instance_spec h19
      obtain ⟨est20, pre20, A20, V20, S20, G20, N20, R20, C20, B20, T20, L20, D20,
        res20, dep20⟩ := launch_instance_spec h20
      obtain ⟨est21, pre21, A21, V21, S21, G21, N21, R21, C21, B21, T21, L21, D21,
        res21, dep21⟩ := launch_instance_spec h21
      obtain ⟨est22, A22, V22, S22, G22, N22, R22, C22, I22, T22, L22, D22, res22,
        dep22⟩ := get_or_create_alb_spec h22
      obtain ⟨est23, some23, A23, V23, S23, G23, N23, R23, C23, I23, B23, L23, D23,
        res23, dep23⟩ := get_or_create_target_group_spec h23
      obtain ⟨m24a, m24b, A24, V24, S24, G24, N24, R24, C24, I24, B24, T24, L24,
        res24, dep24⟩ := register_targets_spec h24
      obtain ⟨est25, A25, V25, S25, G25, N25, R25, C25, I25, B25, T25, D25, res25,
        dep25⟩ := setup_alb_listener_spec h25
      obtain ⟨est26, pft26, A26, V26, S26, G26, N26, R26, C26, I26, B26, L26, D26,
        res26, dep26⟩ := setup_target_group_health_check_spec h26
      refine ⟨⟨?_, ?_, ?_, ?_, ?_, ?_, ?_, ?_, ?_, ?_, ?_, ?_, ?_, ?_, ?_, ?_, ?_, ?_,
        ?_, ?_, ?_, ?_, ?_, ?_, ?_, ?_, ?_⟩, ?_⟩
      · show KEY_NAME ∈ s26.awsKeyNames
        rw [A26, A25, A24, A23, A22, A21, A20, A19, A18, A17, A16, A15, A14, A13, A12,
          A11, A10, A9, A8, A7, A6, A5, A4, A3, A2]
        exact kp1
      · show firstVpcId s26.vpcs = some vz
        rw [V26, V25, V24, V23, V22, V21, V20, V19, V18, V17, V16, V15, V14, V13, V12,
          V11, V10, V9, V8, V7, V6, V5, V4, V3]
        exact est2
      · show firstSubnetId s26.subnets vz "10.0.1.0/24" = some ps1z
        rw [S26, S25, S24, S23, S22, S21, S20, S19, S18, S17, S16, S15, S14, S13, S12,
          S11, S10, S9, S8, S7, pre6 vz "10.0.1.0/24" (by decide),
          pre5 vz "10.0.1.0/24" (by decide), pre4 vz "10.0.1.0/24" (by decide)]
        exact est3
      · show firstSubnetId s26.subnets vz "10.0.4.0/24" = some ps2z
        rw [S26, S25, S24, S23, S22, S21, S20, S19, S18, S17, S16, S15, S14, S13, S12,
          S11, S10, S9, S8, S7, pre6 vz "10.0.4.0/24" (by decide),
          pre5 vz "10.0.4.0/24" (by decide)]
        exact est4
      · show firstSubnetId s26.subnets vz "10.0.2.0/24" = some prs1z
        rw [S26, S25, S24, S23, S22, S21, S20, S19, S18, S17, S16, S15, S14, S13, S12,
          S11, S10, S9, S8, S7, pre6 vz "10.0.2.0/24" (by decide)]
        exact est5
      · show firstSubnetId s26.subnets vz "10.0.3.0/24" = some prs2z
        rw [S26, S25, S24, S23, S22, S21, S20, S19, S18, S17, S16, S15, S14, S13, S12,
          S11, S10, S9, S8, S7]
        exact est6
      · show firstIgwId s26.igws vz = some igwz
        rw [G26, G25, G24, G23, G22, G21, G20, G19, G18, G17, G16, G15, G14, G13, G12,
          G11, G10, G9, G8]
        exact est7
      · show firstNatId s26.nats ps1z = some natz
        rw [N26, N25, N24, N23, N22, N21, N20, N19, N18, N17, N16, N15, N14, N13, N12,
          N11, N10, N9]
        exact est8
      · show firstRtId s26.routeTables vz "public-rt" = some prtz
        rw [R26, R25, R24, R23, R22, R21, R20, R19, R18, R17, pfirst16 vz "public-rt",
          pfirst15 vz "public-rt", pfirst14 vz "public-rt",
          pre13 vz "public-rt" (by decide), pfirst12 vz "public-rt",
          pfirst11 vz "public-rt", pfirst10 vz "public-rt"]
        exact est9
      · show firstRtId s26.routeTables vz "private-rt" = some vrtz
        rw [R26, R25, R24, R23, R22, R21, R20, R19, R18, R17, pfirst16 vz "private-rt",
          pfirst15 vz "private-rt", pfirst14 vz "private-rt"]
        exact est13
      · show rtHasRouteTo s26.routeTables prtz "0.0.0.0/0" = true
        rw [R26, R25, R24, R23, R22, R21, R20, R19, R18, R17]
        refine proute16 _ _ (proute15 _ _ (proute14 _ _ (proute13 _ _ (proute12 _ _
          (proute11 _ _ ?_)))))
        exact est10 some9
      · show rtHasRouteTo s26.routeTables vrtz "0.0.0.0/0" = true
        rw [R26, R25, R24, R23, R22, R21, R20, R19, R18, R17]
        refine proute16 _ _ (proute15 _ _ ?_)
        exact est14 some13
      · show rtHasAssoc s26.routeTables prtz ps1z = true
        rw [R26, R25, R24, R23, R22, R21, R20, R19, R18, R17]
        refine passoc16 _ _ (passoc15 _ _ (passoc14 _ _ (passoc13 _ _ (passoc12 _ _ ?_))))
        exact est11 (psome10 _ some9)
      · show rtHasAssoc s26.routeTables prtz ps2z = true
        rw [R26, R25, R24, R23, R22, R21, R20, R19, R18, R17]
        refine passoc16 _ _ (passoc15 _ _ (passoc14 _ _ (passoc13 _ _ ?_)))
        exact est12 (psome11 _ (psome10 _ some9))
      · show rtHasAssoc s26.routeTables vrtz prs1z = true
        rw [R26, R25, R24, R23, R22, R21, R20, R19, R18, R17]
        refine passoc16 _ _ ?_
        exact est15 (psome14 _ some13)
      · show rtHasAssoc s26.routeTables vrtz prs2z = true
        rw [R26, R25, R24, R23, R22, R21, R20, R19, R18, R17]
        exact est16 (psome15 _ (psome14 _ some13))
      · show firstSgId s26.securityGroups "public-sg" vz = some psgz
        rw [C26, C25, C24, C23, C22, C21, C20, C19, pre18 "public-sg" vz (by decide)]
        exact est17
      · show firstSgId s26.securityGroups "private-sg" vz = some vsgz
        rw [C26, C25, C24, C23, C22, C21, C20, C19]
        exact est18
      · show firstInstanceId s26.instances "private-ec2-1" = some i1z
        rw [I26, I25, I24, I23, I22, pre21 "private-ec2-1" (by decide),
          pre20 "private-ec2-1" (by decide)]
        exact est19
      · show firstInstanceId s26.instances "private-ec2-2" = some i2z
        rw [I26, I25, I24, I23, I22, pre21 "private-ec2-2" (by decide)]
        exact est20
      · show firstInstanceId s26.instances "public-ec2-1" = some ipz
        rw [I26, I25, I24, I23, I22]
        exact est21
      · show firstAlbArn s26.albs "salman-alb" = some albz
        rw [B26, B25, B24, B23]
        exact est22
      · show firstTgArn s26.targetGroups "salman-TG" = some tgz
        rw [pft26 "salman-TG", T25, T24]
        exact est23
      · show (tgz, i1z, 80) ∈ s26.registeredTargets
        rw [D26, D25]
        exact m24a
      · show (tgz, i2z, 80) ∈ s26.registeredTargets
        rw [D26, D25]
        exact m24b
      · show firstListenerArn s26.listeners albz = some lsz
        rw [L26]
        exact est25
      · show tgHealthPath s26.targetGroups tgz = some "/index.html"
        refine est26 ?_
        rw [T25, T24]
        exact some23
      · show depsOkB []
          (t1 ++ t2 ++ t3 ++ t4 ++ t5 ++ t6 ++ t7 ++ t8 ++ t9 ++ t10 ++ t11 ++ t12
            ++ t13 ++ t14 ++ t15 ++ t16 ++ t17 ++ t18 ++ t19 ++ t20 ++ t21 ++ t22
            ++ t23 ++ t24 ++ t25 ++ t26) = true
        simp only [List.append_assoc]
        refine depsOkB_append_sub t1 [] (dep1 []) ?_ ?_
        · intro d hd
          exact absurd hd (List.not_mem_nil d)
        refine depsOkB_append_sub t2 [vz] (dep2 []) ?_ ?_
        · intro d hd
          rw [res2]
          simpa using hd
        refine depsOkB_append_sub t3 [vz, ps1z] (dep3 _ (by simp)) ?_ ?_
        · intro d hd
          rw [res3]
          simpa using hd
        refine depsOkB_append_sub t4 [vz, ps1z, ps2z] (dep4 _ (by simp)) ?_ ?_
        · intro d hd
          rw [res4]
          simpa using hd
        refine depsOkB_append_sub t5 [vz, ps1z, ps2z, prs1z] (dep5 _ (by simp)) ?_ ?_
        · intro d hd
          rw [res5]
          simpa using hd
        refine depsOkB_append_sub t6 [vz, ps1z, ps2z, prs1z, prs2z] (dep6 _ (by simp)) ?_ ?_
        · intro d hd
          rw [res6]
          simpa using hd
        refine depsOkB_append_sub t7 [vz, ps1z, ps2z, prs1z, prs2z, igwz]
          (dep7 _ (by simp)) ?_ ?_
        · intro d hd
          rw [res7]
          simpa using hd
        refine depsOkB_append_sub t8 [vz, ps1z, ps2z, prs1z, prs2z, igwz, natz]
          (dep8 _ (by simp)) ?_ ?_
        · intro d hd
          rw [res8]
          simpa using hd
        refine depsOkB_append_sub t9 [vz, ps1z, ps2z, prs1z, prs2z, igwz, natz, prtz]
          (dep9 _ (by simp)) ?_ ?_
        · intro d hd
          rw [res9]
          simpa using hd
        refine depsOkB_append_sub t10 [vz, ps1z, ps2z, prs1z, prs2z, igwz, natz, prtz]
          (dep10 _ ?_) ?_ ?_
        · intro d hd
          simp only [Option.toList] at hd
          simp at hd
          rcases hd with rfl | rfl <;> simp
        · intro d hd
          rw [res10]
          simpa using hd
        refine depsOkB_append_sub t11 [vz, ps1z, ps2z, prs1z, prs2z, igwz, natz, prtz]
          (dep11 _ (by simp) (by simp)) ?_ ?_
        · intro d hd
          rw [res11]
          simpa using hd
        refine depsOkB_append_sub t12 [vz, ps1z, ps2z, prs1z, prs2z, igwz, natz, prtz]
          (dep12 _ (by simp) (by simp)) ?_ ?_
        · intro d hd
          rw [res12]
          simpa using hd
        refine depsOkB_append_sub t13
          [vz, ps1z, ps2z, prs1z, prs2z, igwz, natz, prtz, vrtz] (dep13 _ (by simp)) ?_ ?_
        · intro d hd
          rw [res13]
          simpa using hd
        refine depsOkB_append_sub t14
          [vz, ps1z, ps2z, prs1z, prs2z, igwz, natz, prtz, vrtz] (dep14 _ ?_) ?_ ?_
        · intro d hd
          simp only [Option.toList] at hd
          simp at hd
          rcases hd with rfl | rfl <;> simp
        · intro d hd
          rw [res14]
          simpa using hd
        refine depsOkB_append_sub t15
          [vz, ps1z, ps2z, prs1z, prs2z, igwz, natz, prtz, vrtz]
          (dep15 _ (by simp) (by simp)) ?_ ?_
        · intro d hd
          rw [res15]
          simpa using hd
        refine depsOkB_append_sub t16
          [vz, ps1z, ps2z, prs1z, prs2z, igwz, natz, prtz, vrtz]
          (dep16 _ (by simp) (by simp)) ?_ ?_
        · intro d hd
          rw [res16]
          simpa using hd
        refine depsOkB_append_sub t17
          [vz, ps1z, ps2z, prs1z, prs2z, igwz, natz, prtz, vrtz, psgz]
          (dep17 _ (by simp)) ?_ ?_
        · intro d hd
          rw [res17]
          simpa using hd
        refine depsOkB_append_sub t18
          [vz, ps1z, ps2z, prs1z, prs2z, igwz, natz, prtz, vrtz, psgz, vsgz]
          (dep18 _ (by simp)) ?_ ?_
        · intro d hd
          rw [res18]
          simpa using hd
        refine depsOkB_append_sub t19
          [vz, ps1z, ps2z, prs1z, prs2z, igwz, natz, prtz, vrtz, psgz, vsgz, i1z]
          (dep19 _ (by simp) (by simp)) ?_ ?_
        · intro d hd
          rw [res19]
          simpa using hd
        refine depsOkB_append_sub t20
          [vz, ps1z, ps2z, prs1z, prs2z, igwz, natz, prtz, vrtz, psgz, vsgz, i1z, i2z]
          (dep20 _ (by simp) (by simp)) ?_ ?_
        · intro d hd
          rw [res20]
          simpa using hd
        refine depsOkB_append_sub t21
          [vz, ps1z, ps2z, prs1z, prs2z, igwz, natz, prtz, vrtz, psgz, vsgz, i1z, i2z,
            ipz] (dep21 _ (by simp) (by simp)) ?_ ?_
        · intro d hd
          rw [res21]
          simpa using hd
        refine depsOkB_append_sub t22
          [vz, ps1z, ps2z, prs1z, prs2z, igwz, natz, prtz, vrtz, psgz, vsgz, i1z, i2z,
            ipz, albz] (dep22 _ ?_ (by simp)) ?_ ?_
        · intro d hd
          simp at hd
          rcases hd with rfl | rfl <;> simp
        · intro d hd
          rw [res22]
          simpa using hd
        refine depsOkB_append_sub t23
          [vz, ps1z, ps2z, prs1z, prs2z, igwz, natz, prtz, vrtz, psgz, vsgz, i1z, i2z,
            ipz, albz, tgz] (dep23 _ (by simp)) ?_ ?_
        · intro d hd
          rw [res23]
          simpa using hd
        refine depsOkB_append_sub t24
          [vz, ps1z, ps2z, prs1z, prs2z, igwz, natz, prtz, vrtz, psgz, vsgz, i1z, i2z,
            ipz, albz, tgz] (dep24 _ (by simp) (by simp) (by simp)) ?_ ?_
        · intro d hd
          rw [res24]
          simpa using hd
        refine depsOkB_append_sub t25
          [vz, ps1z, ps2z, prs1z, prs2z, igwz, natz, prtz, vrtz, psgz, vsgz, i1z, i2z,
            ipz, albz, tgz, lsz] (dep25 _ (by simp) (by simp)) ?_ ?_
        · intro d hd
          rw [res25]
          simpa using hd
        exact dep26 _ (by simp)

/-! ### Claim theorems -/

/-- C1.  Reconciliation is idempotent: from any provider state, after one
successful run of the flow, running the flow a second time (under any
oracle, any fuel, any key-pair inputs) returns the same provider id for
every resource, leaves the provider state untouched, and issues zero
create calls and zero modify calls — every `get_or_create_*` takes the
find-positive short-circuit path, so the second run's trace consists of
read-only find/describe calls (plus resolved markers and the
unconditional `register_targets` no-op re-registration). -/
theorem c1_reconcile_idempotent (o : Nat → String) (fuel : Nat)
    (ke : String × String) (km : String) (o' : Nat → String) (fuel' : Nat)
    (ke' : String × String) (km' : String) (s0 : AwsState)
    (r : RunIds × AwsState × List Event) (h : runScript o fuel ke km s0 = some r) :
    runScript o' fuel' ke' km' r.2.1 = some (r.1, r.2.1, convergedTrace r.1)
    ∧ countCreates (convergedTrace r.1) = 0
    ∧ countModifies (convergedTrace r.1) = 0 := by
  obtain ⟨hc, _⟩ := runScript_spec h
  exact ⟨runScript_of_converged hc o' fuel' ke' km',
    countCreates_convergedTrace r.1, countModifies_convergedTrace r.1⟩

theorem c1_reconcile_idempotent_witness :
    ∃ r : RunIds × AwsState × List Event,
      runScript (fun _ => "available") 1
        ("InvalidKeyPair.NotFound", "The key pair does not exist") "MATERIAL"
        emptyState = some r
      ∧ runScript (fun _ => "pending") 0 ("AuthFailure", "denied") "ZZZ" r.2.1
          = some (r.1, r.2.1, convergedTrace r.1)
      ∧ countCreates (convergedTrace r.1) = 0
      ∧ countModifies (convergedTrace r.1) = 0 := by
  rcases hr : runScript (fun _ => "available") 1
      ("InvalidKeyPair.NotFound", "The key pair does not exist") "MATERIAL"
      emptyState with _ | r
  · exact absurd hr (by decide)
  · obtain ⟨h1, h2, h3⟩ := c1_reconcile_idempotent (fun _ => "available") 1
      ("InvalidKeyPair.NotFound", "The key pair does not exist") "MATERIAL"
      (fun _ => "pending") 0 ("AuthFailure", "denied") "ZZZ" emptyState r hr
    exact ⟨r, rfl, h1, h2, h3⟩

/-- C2.  Dependency ordering: in the trace of any successful run, every
call that references provider ids (create calls with their dependency
arguments, modify calls, the target registration) occurs strictly after
an event marking each referenced id as resolved — a dependent resource's
create call is never issued before the provider id of every resource it
depends on is known. -/
theorem c2_dependency_ordering (o : Nat → String) (fuel : Nat)
    (ke : String × String) (km : String) (s0 : AwsState)
    (r : RunIds × AwsState × List Event) (h : runScript o fuel ke km s0 = some r) :
    ∀ (i : Nat) (e : Event), r.2.2[i]? = some e → ∀ d ∈ eventDeps e,
      ∃ j : Nat, j < i ∧ ∃ kind, r.2.2[j]? = some (Event.resolved kind d) := by
  obtain ⟨_, hdeps⟩ := runScript_spec h
  intro i e hi d hd
  rcases depsOkB_get _ _ hdeps i e hi d hd with hk | hj
  · exact absurd hk (List.not_mem_nil d)
  · exact hj

theorem c2_dependency_ordering_witness :
    ∃ r : RunIds × AwsState × List Event,
      runScript (fun _ => "available") 1
        ("InvalidKeyPair.NotFound", "The key pair does not exist") "MATERIAL"
        emptyState = some r
      ∧ r.2.2[6]? = some (Event.createRes "subnet" [0])
      ∧ ∀ d ∈ [0], ∃ j : Nat, j < 6 ∧ ∃ kind,
          r.2.2[j]? = some (Event.resolved kind d) := by
  rcases hr : runScript (fun _ => "available") 1
      ("InvalidKeyPair.NotFound", "The key pair does not exist") "MATERIAL"
      emptyState with _ | r
  · exact absurd hr (by decide)
  · have hx : (runScript (fun _ => "available") 1
        ("InvalidKeyPair.NotFound", "The key pair does not exist") "MATERIAL"
        emptyState).map (fun x => x.2.2[6]?)
        = some (some (Event.createRes "subnet" [0])) := by decide
    rw [hr] at hx
    simp only [Option.map_some', Option.some.injEq] at hx
    refine ⟨r, rfl, hx, ?_⟩
    intro d hd
    exact c2_dependency_ordering (fun _ => "available") 1
      ("InvalidKeyPair.NotFound", "The key pair does not exist") "MATERIAL"
      emptyState r hr 6 (Event.createRes "subnet" [0]) hx d hd

set_option maxRecDepth 8000 in
/-- C3 counterexample.  The claim says the NAT readiness wait fails with a
`ReadinessTimeoutError` after a configured bound when the status never
reaches `available`.  In the source `wait_for_nat` is `while True:` with
no bound and no such error: after 600 polls of a never-ready status
stream the loop has neither returned nor raised — it has issued exactly
600 polls and is still going. -/
theorem c3_counterexample :
    (wait_for_nat (fun _ => "pending") 0 600).1 = none
    ∧ (wait_for_nat (fun _ => "pending") 0 600).2.length = 600 := by
  exact ⟨by decide, by decide⟩

/-- C3 amended.  `wait_for_nat` polls `describe_nat_gateways` (every 10
seconds, not modelled) until the state equals `available`; there is no
timeout and no `ReadinessTimeoutError` in the source: for a status stream
that never reaches `available` the loop has not exited within any finite
number of iterations, and when the wait does return the last polled
status was `available` and no earlier poll saw it. -/
theorem c3_wait_unbounded :
    (∀ (o : Nat → String) (fuel : Nat), (∀ j, o j ≠ "available") →
      (wait_for_nat o 0 fuel).1 = none)
    ∧ (∀ (o : Nat → String) (fuel k : Nat), (wait_for_nat o 0 fuel).1 = some k →
      o k = "available" ∧ ∀ j < k, o j ≠ "available") := by
  constructor
  · intro o fuel hnever
    exact wait_for_nat_none o hnever fuel 0
  · intro o fuel k h
    obtain ⟨ha, hb⟩ := wait_for_nat_some o fuel 0 k h
    exact ⟨ha, fun j hj => hb j (Nat.zero_le j) hj⟩

theorem c3_wait_unbounded_witness :
    (wait_for_nat (fun _ => "pending") 0 5).1 = none :=
  c3_wait_unbounded.1 (fun _ => "pending") 5 (fun _ => by
    show "pending" ≠ "available"
    decide)

/-- C4 counterexample.  In `get_or_create_rds`, a non-duplicate provider
error (`AccessDenied`) from the subnet-group create is silently absorbed
and the function still reports success (refuting "provider errors with
any other code are not swallowed"), while a duplicate/already-exists
error from the DB-instance create propagates as a failure instead of
being treated as success with a find retry. -/
theorem c4_counterexample :
    get_or_create_rds [] "salman-rds" (Except.error "AccessDenied") (Except.ok ())
      = Except.ok "salman-rds"
    ∧ get_or_create_rds [] "salman-rds" (Except.ok ())
        (Except.error "DBInstanceAlreadyExists")
      = Except.error "DBInstanceAlreadyExists" :=
  ⟨rfl, rfl⟩

/-- C4 amended.  `get_or_create_rds` classifies nothing by error code: the
outcome of the subnet-group create — duplicate or not — never influences
the result (bare `except: pass`, no find retry), any error from the
unguarded DB-instance create (including already-exists codes) propagates
unchanged, and an existing instance found up front is adopted. -/
theorem c4_rds_error_handling :
    (∀ (dbs : List DbInstance) (name : String) (sg1 sg2 db : Except String Unit),
      get_or_create_rds dbs name sg1 db = get_or_create_rds dbs name sg2 db)
    ∧ (∀ (dbs : List DbInstance) (name : String) (sg : Except String Unit) (e : String),
      dbs.find? (fun db => decide (db.dbInstanceIdentifier = name)) = none →
      get_or_create_rds dbs name sg (Except.error e) = Except.error e)
    ∧ (∀ (dbs : List DbInstance) (name : String) (sg db : Except String Unit)
        (d : DbInstance),
      dbs.find? (fun db => decide (db.dbInstanceIdentifier = name)) = some d →
      get_or_create_rds dbs name sg db = Except.ok d.dbInstanceIdentifier) := by
  refine ⟨?_, ?_, ?_⟩
  · intro dbs name sg1 sg2 db
    unfold get_or_create_rds
    cases dbs.find? (fun db => decide (db.dbInstanceIdentifier = name)) <;>
      cases sg1 <;> cases sg2 <;> cases db <;> rfl
  · intro dbs name sg e hf
    unfold get_or_create_rds
    rw [hf]
    cases sg <;> rfl
  · intro dbs name sg db d hf
    unfold get_or_create_rds
    rw [hf]

theorem c4_rds_error_handling_witness :
    get_or_create_rds [] "salman-rds" (Except.error "AccessDenied")
      (Except.error "DBInstanceAlreadyExists")
      = Except.error "DBInstanceAlreadyExists" :=
  c4_rds_error_handling.2.1 [] "salman-rds" (Except.error "AccessDenied")
    "DBInstanceAlreadyExists" (by decide)

/-- C5 counterexample.  The key-pair handler classifies the describe error
by substring search over the rendered error text, message included: two
errors with the same code `Throttling` are handled differently depending
only on their free-text message — the one whose message merely mentions
`InvalidKeyPair.NotFound` is absorbed (create path taken), the other is
re-raised.  Classification therefore does not depend only on the code. -/
theorem c5_counterexample :
    keypairErrorMatchesNotFound "Throttling" "Rate exceeded" = false
    ∧ keypairErrorMatchesNotFound "Throttling" "retry InvalidKeyPair.NotFound later" = true
    ∧ get_or_create_keypair ("Throttling", "Rate exceeded") "m" emptyState
        = Except.error ("Throttling", "Rate exceeded")
    ∧ get_or_create_keypair ("Throttling", "retry InvalidKeyPair.NotFound later") "m"
        emptyState
        = Except.ok ({ emptyState with
                       awsKeyNames := ["salman-key"],
                       localKeyFile := some ⟨"m", true⟩ },
                     [Event.find "key-pair", Event.createRes "key-pair" []]) := by
  refine ⟨by decide, by decide, by rfl, by rfl⟩

/-- C5 amended.  The only provider-error classification in the program —
line 68's `"InvalidKeyPair.NotFound" in str(e)` — is a substring test
over the botocore-rendered error text, which contains both the code and
the free-text message, so whether an error is absorbed or re-raised is
decided by that text and not by the structured code alone. -/
theorem c5_classification_by_text :
    ∀ (code msg m : String),
      get_or_create_keypair (code, msg) m emptyState
        = (if keypairErrorMatchesNotFound code msg then
            Except.ok ({ emptyState with
                         awsKeyNames := [KEY_NAME],
                         localKeyFile := some ⟨m, true⟩ },
                       [Event.find "key-pair", Event.createRes "key-pair" []])
          else Except.error (code, msg)) := by
  intro code msg m
  unfold get_or_create_keypair
  rw [if_neg (by decide : KEY_NAME ∉ emptyState.awsKeyNames)]
  by_cases hc : keypairErrorMatchesNotFound code msg
  · rw [if_pos hc, if_pos hc]
    rfl
  · rw [if_neg hc, if_neg hc]

/-- C6 counterexample.  With the key pair existing provider-side and no
local key file, `get_or_create_keypair` returns success after printing a
warning: no `KeyMaterialUnavailableError` (no error of any kind) is
signalled to the caller, and the state is returned unchanged. -/
theorem c6_counterexample :
    get_or_create_keypair ("InvalidKeyPair.NotFound", "missing") "m" stateC6
      = Except.ok (stateC6, [Event.find "key-pair"])
    ∧ stateC6.localKeyFile = none := by
  exact ⟨by rfl, rfl⟩

/-- C6 amended.  When a new key pair is created its private material is
written to the key path with owner-read-only permissions; when the
provider-side key pair already exists the function returns success
unchanged — whether or not the local key file exists — so a missing
local file produces only a printed warning (no error is signalled), no
empty/placeholder file is written, and an existing local key file is
never rewritten. -/
theorem c6_key_material_handling :
    (∀ (m : String) (s : AwsState), KEY_NAME ∉ s.awsKeyNames →
      get_or_create_keypair ("InvalidKeyPair.NotFound", "The key pair does not exist")
        m s
        = Except.ok ({ s with
                       awsKeyNames := s.awsKeyNames ++ [KEY_NAME],
                       localKeyFile := some ⟨m, true⟩ },
                     [Event.find "key-pair", Event.createRes "key-pair" []]))
    ∧ (∀ (e : String × String) (m : String) (s : AwsState), KEY_NAME ∈ s.awsKeyNames →
      get_or_create_keypair e m s = Except.ok (s, [Event.find "key-pair"])) := by
  constructor
  · intro m s hmem
    unfold get_or_create_keypair
    rw [if_neg hmem, if_pos (by decide)]
  · intro e m s hmem
    exact get_or_create_keypair_found hmem e m

theorem c6_key_material_handling_witness :
    KEY_NAME ∉ emptyState.awsKeyNames
    ∧ get_or_create_keypair
        ("InvalidKeyPair.NotFound", "The key pair does not exist") "MAT" emptyState
        = Except.ok ({ emptyState with
                       awsKeyNames := emptyState.awsKeyNames ++ [KEY_NAME],
                       localKeyFile := some ⟨"MAT", true⟩ },
                     [Event.find "key-pair", Event.createRes "key-pair" []]) :=
  ⟨by decide, c6_key_material_handling.1 "MAT" emptyState (by decide)⟩

/-- C7 counterexample.  A subnet matching the (vpc, CIDR) lookup key
exists with the public-ip flag unset while the desired value is
public=true: `get_or_create_subnet` adopts it as-is — the trace carries
no `modify_subnet_attribute` call and the run ends with the flag still
false. -/
theorem c7_counterexample :
    get_or_create_subnet 1 "10.0.1.0/24" "public-subnet-1" true "us-east-1a" stateC7
      = (7, stateC7, [Event.find "subnet", Event.resolved "subnet" 7])
    ∧ countModifies [Event.find "subnet", Event.resolved "subnet" 7] = 0
    ∧ stateC7.subnets.map (fun sn => sn.mapPublicIpOnLaunch) = [false] := by
  exact ⟨by decide, rfl, rfl⟩

/-- C7 amended.  An existing subnet found by its (network id, CIDR block)
lookup key is adopted as-is: no modify call is issued and the state is
unchanged regardless of any public-ip-on-launch mismatch; the
`modify_subnet_attribute` call setting the flag is issued only on the
creation path when public=true. -/
theorem c7_subnet_drift_not_reconciled :
    (∀ (v : Nat) (c n : String) (p : Bool) (a : String) (s : AwsState) (sn : Subnet)
      (l : List Subnet), findSubnets s.subnets v c = sn :: l →
      get_or_create_subnet v c n p a s
        = (sn.subnetId, s, [Event.find "subnet", Event.resolved "subnet" sn.subnetId]))
    ∧ (∀ (v : Nat) (c n a : String) (s : AwsState), findSubnets s.subnets v c = [] →
      (get_or_create_subnet v c n true a s).2.2
        = [Event.find "subnet", Event.createRes "subnet" [v],
           Event.resolved "subnet" s.nextId, Event.modifyRes "subnet" s.nextId]) := by
  constructor
  · intro v c n p a s sn l hf
    unfold get_or_create_subnet
    rw [hf]
  · intro v c n a s hf
    unfold get_or_create_subnet
    rw [hf]
    rfl

theorem c7_subnet_drift_not_reconciled_witness :
    get_or_create_subnet 1 "10.0.1.0/24" "public-subnet-1" false "us-east-1a" stateC7
      = (7, stateC7, [Event.find "subnet", Event.resolved "subnet" 7]) :=
  c7_subnet_drift_not_reconciled.1 1 "10.0.1.0/24" "public-subnet-1" false "us-east-1a"
    stateC7 ⟨7, 1, "10.0.1.0/24", some "public-subnet-1", "us-east-1a", false⟩ []
    (by decide)

/-- C8 counterexample.  A target group whose health-check path already
matches the desired `/index.html` but whose thresholds (healthy 5,
unhealthy 2) differ from the desired 3/3 triggers NO modify call:
`setup_target_group_health_check` returns after the path comparison
alone, leaving the state unchanged. -/
theorem c8_counterexample :
    setup_target_group_health_check 9 "/index.html" stateC8
      = (stateC8, [Event.find "target-group"])
    ∧ stateC8.targetGroups.map (fun t => t.healthyThresholdCount) = [5]
    ∧ countModifies [Event.find "target-group"] = 0 := by
  exact ⟨by decide, rfl, rfl⟩

/-- C8 amended.  `setup_target_group_health_check` compares only the
health-check path: when the stored path equals the desired one no modify
is issued (thresholds are never examined), and only when the path
differs is `modify_target_group` called. -/
theorem c8_tg_drift_path_only :
    (∀ (tgArn : Nat) (path : String) (s : AwsState) (t : TargetGroup),
      tgByArn s.targetGroups tgArn = some t → t.healthCheckPath = path →
      setup_target_group_health_check tgArn path s = (s, [Event.find "target-group"]))
    ∧ (∀ (tgArn : Nat) (path : String) (s : AwsState) (t : TargetGroup),
      tgByArn s.targetGroups tgArn = some t → t.healthCheckPath ≠ path →
      (setup_target_group_health_check tgArn path s).2
        = [Event.find "target-group", Event.modifyRes "target-group" tgArn]) := by
  constructor
  · intro tgArn path s t hx hp
    unfold setup_target_group_health_check
    rw [hx]
    dsimp only
    rw [if_pos hp]
  · intro tgArn path s t hx hp
    unfold setup_target_group_health_check
    rw [hx]
    dsimp only
    rw [if_neg hp]

theorem c8_tg_drift_path_only_witness :
    (setup_target_group_health_check 9 "/" stateC8).2
      = [Event.find "target-group", Event.modifyRes "target-group" 9] :=
  c8_tg_drift_path_only.2 9 "/" stateC8
    ⟨9, "salman-TG", "HTTP", 80, 1, "/index.html", 30, 5, 5, 2⟩ (by decide) (by decide)

/-- C9.  The instance lookup in `launch_instance` is state-insensitive:
whenever the Name-tag query returns any reservation at all — the
matching instance's lifecycle state is unconstrained, so stopped or
terminated instances count — the function returns the first instance id
of the first reservation, issues no launch call, and returns the state
unchanged, so the existing instance's subnet, security group, and user
data are never updated and a terminated instance with a matching name
suppresses creation of a replacement on every call. -/
theorem c9_instance_lookup_state_insensitive (name : String) (subnetId sgId : Nat)
    (ud : String) (s : AwsState) (i : Ec2Instance) (rest : List Ec2Instance)
    (h : findInstancesByName s.instances name = i :: rest) :
    launch_instance name subnetId sgId ud s
      = (i.instanceId, s, [Event.find "instance", Event.resolved "instance" i.instanceId]) := by
  unfold launch_instance
  rw [h]

theorem c9_instance_lookup_state_insensitive_witness :
    launch_instance "private-ec2-1" 42 43 "new user data" stateC9
      = (11, stateC9, [Event.find "instance", Event.resolved "instance" 11]) :=
  c9_instance_lookup_state_insensitive "private-ec2-1" 42 43 "new user data" stateC9
    ⟨11, some "private-ec2-1", "ami-0532be01f26a3de55", "t2.micro", "salman-key", 1,
     [2], "", "terminated"⟩ [] (by decide)

/-- C10.  NAT readiness polling runs only on the creation path: a NAT
gateway already present in the public subnet is adopted immediately with
its id returned and no status poll issued — its `state` field (pending,
failed, deleted, ...) is never read — while on the creation path the
function returns an id only after a poll reported `available` (and no
earlier poll did). -/
theorem c10_nat_wait_only_on_creation :
    (∀ (o : Nat → String) (fuel ps : Nat) (s : AwsState) (n : NatGw) (l : List NatGw),
      findNats s.nats ps = n :: l →
      get_or_create_nat o fuel ps s = some (n.natGatewayId, s,
        [Event.find "nat-gateway", Event.resolved "nat-gateway" n.natGatewayId]))
    ∧ (∀ (o : Nat → String) (fuel ps : Nat) (s : AwsState) (i : Nat) (s' : AwsState)
        (tr : List Event), findNats s.nats ps = [] →
        get_or_create_nat o fuel ps s = some (i, s', tr) →
        ∃ k : Nat, o k = "available" ∧ ∀ j < k, o j ≠ "available") := by
  constructor
  · intro o fuel ps s n l hf
    unfold get_or_create_nat
    rw [hf]
  · intro o fuel ps s i s' tr hf h
    unfold get_or_create_nat at h
    rw [hf] at h
    cases hw : wait_for_nat o 0 fuel with
    | mk rr polls =>
      rw [hw] at h
      cases rr with
      | none => simp at h
      | some k =>
        obtain ⟨hav, hbefore⟩ := wait_for_nat_some o fuel 0 k (by rw [hw])
        exact ⟨k, hav, fun j hj => hbefore j (Nat.zero_le j) hj⟩

theorem c10_nat_wait_only_on_creation_witness :
    get_or_create_nat (fun _ => "pending") 0 3 stateC10
      = some (21, stateC10,
        [Event.find "nat-gateway", Event.resolved "nat-gateway" 21]) :=
  c10_nat_wait_only_on_creation.1 (fun _ => "pending") 0 3 stateC10
    ⟨21, 3, "pending", 20⟩ [] (by decide)

end AwsAutomation
